import Mathlib

/-!
Verification of the AVIOS tick-driven multi-queue scheduler simulator
(`src/scheduler/task.py`, `src/scheduler/linux_baseline.py`,
`src/scheduler/ai_scheduler.py`, `src/scheduler/ai_simulator.py`).

The Python code is shallowly embedded: tasks, queues, cores, the event log
and the per-tick engine become explicit state passed through pure Lean
functions.  Python machine reals are modelled by exact rationals; Python
`int()` (truncation toward zero) by `pyInt`.  The CFS priority queue is
modelled as a multiset of entries with a pop-minimum operation, which is the
semantics `heapq` provides; `_cfs_pop_min`'s unbounded `while` loop is
modelled with explicit fuel, and the fuel bound `length + 1` is proved
sufficient, which is exactly the loop's termination argument.
-/

namespace AVIOS

/-- Python `int(x)` on a rational: truncation toward zero (on the reduced
fraction, `num.tdiv den` is exactly that). -/
def pyInt (q : ℚ) : ℤ := q.num.tdiv q.den

/-- Python `str.upper()` restricted to the ASCII strings we compare against. -/
def pyUpper (s : String) : String := ⟨s.data.map Char.toUpper⟩

/-- One CFS min-heap entry `(snapshot vruntime, insertion counter, pid)`;
the Python tuples `(vruntime, counter, pid, task)` carry the task object
itself as the fourth component, modelled here by looking the pid up in the
task store (`live` maps below), which is where every queued task lives. -/
structure Entry where
  vr : ℚ
  seq : ℕ
  pid : ℕ
deriving DecidableEq

/-- `heapq` tuple comparison on entries (lexicographic). -/
def entryLtb (a b : Entry) : Bool :=
  decide (a.vr < b.vr) ||
    (decide (a.vr = b.vr) &&
      (decide (a.seq < b.seq) || (decide (a.seq = b.seq) && decide (a.pid < b.pid))))

/-- The minimum entry of a heap (what `heapq.heappop` removes), `none` on an
empty heap. -/
def minE : List Entry → Option Entry
  | [] => none
  | e :: rest =>
    match minE rest with
    | none => some e
    | some m => if entryLtb m e then some m else some e

/-- `heapq.heappop`: the minimum entry together with the remaining heap. -/
def popMin (l : List Entry) : Option (Entry × List Entry) :=
  match minE l with
  | none => none
  | some m => some (m, l.erase m)

/-- The `1e-6` tolerance of `_cfs_pop_min`'s lazy-validity check. -/
def tol : ℚ := 1 / 1000000

/-- Whether a heap entry's snapshot vruntime is stale relative to the task's
live vruntime (`live`). -/
def isStale (live : ℕ → ℚ) (e : Entry) : Bool := !(decide (|live e.pid - e.vr| < tol))

/-- Number of stale entries in a heap. -/
def staleCount (live : ℕ → ℚ) (heap : List Entry) : ℕ := heap.countP (isStale live)

/-- `_cfs_pop_min` with explicit fuel for the `while heap:` loop.
`none` means the fuel ran out (which `cfsPopMinF_succeeds` proves cannot
happen at fuel `heap.length + 1`); `some (res, heap', ctr')` means the loop
finished with Python return value `res` (the popped valid entry, or `none`
for an exhausted heap), the heap it left behind, and the insertion counter
after any stale-entry reinsertions. -/
def cfsPopMinF (live : ℕ → ℚ) : ℕ → List Entry → ℕ → Option (Option Entry × List Entry × ℕ)
  | 0, _, _ => none
  | fuel + 1, heap, ctr =>
    match popMin heap with
    | none => some (none, heap, ctr)
    | some (e, rest) =>
      if |live e.pid - e.vr| < tol then some (some e, rest, ctr)
      else cfsPopMinF live fuel (rest ++ [⟨live e.pid, ctr, e.pid⟩]) (ctr + 1)

/-- The fuel actually used by the model: one more than the heap size. -/
def cfsPop (live : ℕ → ℚ) (heap : List Entry) (ctr : ℕ) :
    Option (Option Entry × List Entry × ℕ) :=
  cfsPopMinF live (heap.length + 1) heap ctr

lemma minE_eq_none {l : List Entry} : minE l = none ↔ l = [] := by
  cases l with
  | nil => simp [minE]
  | cons e rest =>
    simp only [minE]
    cases minE rest
    · simp
    · simp only []
      split <;> simp

lemma minE_mem : ∀ {l : List Entry} {m : Entry}, minE l = some m → m ∈ l := by
  intro l
  induction l with
  | nil => intro m h; simp [minE] at h
  | cons e rest ih =>
    intro m h
    simp only [minE] at h
    cases hr : minE rest with
    | none => rw [hr] at h; simp at h; simp [h]
    | some m' =>
      rw [hr] at h
      by_cases hlt : entryLtb m' e
      · simp [hlt] at h
        exact List.mem_cons_of_mem _ (h ▸ ih hr)
      · simp [hlt] at h
        simp [h]

lemma popMin_eq_none {l : List Entry} : popMin l = none ↔ l = [] := by
  unfold popMin
  cases h : minE l with
  | none => simpa using minE_eq_none.mp h
  | some m =>
    simp only []
    constructor
    · intro hc; cases hc
    · intro hl; subst hl; simp [minE] at h

lemma popMin_spec {l : List Entry} {e : Entry} {rest : List Entry}
    (h : popMin l = some (e, rest)) : e ∈ l ∧ rest = l.erase e := by
  unfold popMin at h
  cases hm : minE l with
  | none => rw [hm] at h; cases h
  | some m =>
    rw [hm] at h
    simp only [Option.some.injEq, Prod.mk.injEq] at h
    obtain ⟨he, hr⟩ := h
    subst he
    exact ⟨minE_mem hm, hr.symm⟩

lemma staleCount_perm {live : ℕ → ℚ} {l₁ l₂ : List Entry} (h : l₁.Perm l₂) :
    staleCount live l₁ = staleCount live l₂ := h.countP_eq _

lemma staleCount_le_length (live : ℕ → ℚ) (l : List Entry) :
    staleCount live l ≤ l.length := List.countP_le_length _

/-- Termination and success of `_cfs_pop_min` on a non-empty heap: given fuel
exceeding the number of stale entries, the loop returns a popped entry whose
snapshot vruntime matches the referenced task's live vruntime within `1e-6`. -/
lemma cfsPopMinF_succeeds :
    ∀ (n : ℕ) (live : ℕ → ℚ) (heap : List Entry) (ctr : ℕ),
      staleCount live heap < n → heap ≠ [] →
      ∃ e rest c', cfsPopMinF live n heap ctr = some (some e, rest, c') ∧
        |live e.pid - e.vr| < tol := by
  intro n
  induction n with
  | zero => intro live heap ctr hlt _; omega
  | succ n ih =>
    intro live heap ctr hlt hne
    cases hp : popMin heap with
    | none => exact absurd (popMin_eq_none.mp hp) hne
    | some pr =>
      obtain ⟨e, rest⟩ := pr
      obtain ⟨hmem, hrest⟩ := popMin_spec hp
      by_cases hv : |live e.pid - e.vr| < tol
      · exact ⟨e, rest, ctr, by simp [cfsPopMinF, hp, hv], hv⟩
      · -- stale entry: one reinsertion, recurse with one fewer stale entry
        have hperm : heap.Perm (e :: rest) := by
          rw [hrest]; exact List.perm_cons_erase hmem
        have hstale_e : isStale live e = true := by simp [isStale, hv]
        have hcount : staleCount live heap = staleCount live rest + 1 := by
          rw [staleCount_perm hperm]
          simp [staleCount, List.countP_cons, hstale_e]
        have hfresh : isStale live ⟨live e.pid, ctr, e.pid⟩ = false := by
          simp [isStale, tol]
        have hcount' :
            staleCount live (rest ++ [⟨live e.pid, ctr, e.pid⟩]) = staleCount live rest := by
          simp [staleCount, List.countP_append, hfresh]
        have hne' : rest ++ [(⟨live e.pid, ctr, e.pid⟩ : Entry)] ≠ [] := by
          simp
        obtain ⟨e', rest', c', heq, hv'⟩ :=
          ih live (rest ++ [⟨live e.pid, ctr, e.pid⟩]) (ctr + 1) (by omega) hne'
        refine ⟨e', rest', c', ?_, hv'⟩
        simpa [cfsPopMinF, hp, hv] using heq

/-- `cfsPop` (fuel `length + 1`) always succeeds on a non-empty heap. -/
lemma cfsPop_succeeds (live : ℕ → ℚ) (heap : List Entry) (ctr : ℕ) (hne : heap ≠ []) :
    ∃ e rest c', cfsPop live heap ctr = some (some e, rest, c') ∧
      |live e.pid - e.vr| < tol := by
  refine cfsPopMinF_succeeds (heap.length + 1) live heap ctr ?_ hne
  have := staleCount_le_length live heap
  omega

/-- When every entry matches its task's live vruntime, the first pop is valid:
the loop returns immediately, performing no stale-entry reinsertion (the
returned counter is unchanged) and leaving exactly the heap minus the popped
minimum. -/
lemma cfsPop_of_all_valid (live : ℕ → ℚ) (heap : List Entry) (ctr : ℕ)
    (hall : ∀ e ∈ heap, |live e.pid - e.vr| < tol) (hne : heap ≠ []) :
    ∃ e, minE heap = some e ∧
      cfsPop live heap ctr = some (some e, heap.erase e, ctr) := by
  cases hm : minE heap with
  | none => exact absurd (minE_eq_none.mp hm) hne
  | some m =>
    refine ⟨m, rfl, ?_⟩
    have hv := hall m (minE_mem hm)
    simp [cfsPop, cfsPopMinF, popMin, hm, hv]

/-! ## Data model

`Features` is the slice of the input row the scheduler core reads
(`Task.__init__` and both `admit`s touch exactly these keys); a `none` field
models an absent column.  `Task` mirrors the Python `Task` object field by
field; `uid` models the `uuid.uuid4()` logging id, whose irrelevance to the
event log is the determinism claim. -/

inductive Mode
  | baseline
  | ai
deriving DecidableEq

inductive Sched
  | FIFO
  | RR
  | CFS
  | IDLE
deriving DecidableEq

structure Features where
  pid : ℕ
  name : Option String := none
  arrivalSec : Option ℤ := none
  totalTimeTicks : Option ℚ := none
  sumExecRuntime : Option ℚ := none
  seVruntime : Option ℚ := none
  seLoadWeight : Option ℚ := none
  schedulingPolicy : Option String := none
deriving DecidableEq

structure Task where
  features : Features
  pid : ℕ
  name : String
  total_time : ℤ
  remaining : ℤ
  arrival_time : ℤ
  resource_type : Option String
  interactivity : Option String
  priority_class : Option String
  execution_class : Option String
  subqueue_score : Option ℚ
  assigned_scheduler : Option Sched
  subqueue : Option String
  quantum : Option ℤ
  total_run : ℤ
  first_start : Option ℤ
  completion_time : Option ℤ
  vruntime : ℚ
  weight : ℚ
  uid : ℕ
deriving DecidableEq

/-- `Task.__init__`: derive `total_time` from `Total_Time_Ticks` if positive,
else `se.sum_exec_runtime` (each `0` when the column is absent). -/
def Task.init (row : Features) (uid : ℕ) : Task :=
  let sumExec : ℚ := row.sumExecRuntime.getD 0
  let totalTicks : ℚ := row.totalTimeTicks.getD 0
  let tt : ℤ := pyInt (if totalTicks > 0 then totalTicks else sumExec)
  { features := row
    pid := row.pid
    name := row.name.getD ("T" ++ toString row.pid)
    total_time := tt
    remaining := tt
    arrival_time := row.arrivalSec.getD 0
    resource_type := none
    interactivity := none
    priority_class := none
    execution_class := none
    subqueue_score := none
    assigned_scheduler := none
    subqueue := none
    quantum := none
    total_run := 0
    first_start := none
    completion_time := none
    vruntime := row.seVruntime.getD 0
    weight := row.seLoadWeight.getD 1024
    uid := uid }

structure Core where
  runningPid : Option ℕ
  timeLeft : ℤ
deriving DecidableEq

/-- One `_log` record.  A `none` in the task-derived fields corresponds to the
key being absent (no task passed) or holding Python `None`. -/
structure LogRow where
  time : ℤ
  event : String
  core : Option ℕ
  pid : Option ℕ
  name : Option String
  sched : Option Sched
  subq : Option String
  remaining : Option ℤ
  quantum : Option ℤ
  vr : Option ℚ
  score : Option ℚ
  reason : Option String
deriving DecidableEq

/-- Whole simulator state (shared shape of `LinuxBaselineScheduler` and
`AIScheduler`).  The task store `tasks` is `task_map` as an insertion-ordered
association list; queues and cores hold pids, modelling Python references
into `task_map` (pids are unique per run).  `logsRev` keeps the event list
newest-first for cheap appends; `Sim.logList` is the actual log. -/
structure Sim where
  rrQuantumCfg : ℤ
  counter : ℕ
  fifoQ : List ℕ
  rrQ : List ℕ
  idleQ : List ℕ
  cfsQ : List Entry
  cores : List Core
  time : ℤ
  logsRev : List LogRow
  tasks : List (ℕ × Task)
  completed : List ℕ
  contextSwitches : ℕ
deriving DecidableEq

def Sim.logList (s : Sim) : List LogRow := s.logsRev.reverse

def initSim (numCores : ℕ) (rrq : ℤ) : Sim :=
  { rrQuantumCfg := rrq
    counter := 0
    fifoQ := []
    rrQ := []
    idleQ := []
    cfsQ := []
    cores := List.replicate numCores ⟨none, 0⟩
    time := 0
    logsRev := []
    tasks := []
    completed := []
    contextSwitches := 0 }

def lookupTask (s : Sim) (p : ℕ) : Option Task := s.tasks.lookup p

/-- Python `task_map[pid] = task` / in-place task mutation: replace the first
binding of the key, or append a new one. -/
def updBindings (p : ℕ) (t : Task) : List (ℕ × Task) → List (ℕ × Task)
  | [] => [(p, t)]
  | (q, u) :: rest => if q = p then (p, t) :: rest else (q, u) :: updBindings p t rest

def setTask (t : Task) (s : Sim) : Sim := { s with tasks := updBindings t.pid t s.tasks }

/-- Live vruntime of the task an entry references (the entry's fourth tuple
component in Python). -/
def liveVr (s : Sim) (p : ℕ) : ℚ := ((s.tasks.lookup p).map Task.vruntime).getD 0

def mkLog (time : ℤ) (event : String) (core : Option ℕ) (t : Option Task)
    (reason : Option String) : LogRow :=
  match t with
  | none =>
    { time := time, event := event, core := core, pid := none, name := none,
      sched := none, subq := none, remaining := none, quantum := none,
      vr := none, score := none, reason := reason }
  | some t =>
    { time := time, event := event, core := core, pid := some t.pid,
      name := some t.name, sched := t.assigned_scheduler, subq := t.subqueue,
      remaining := some t.remaining, quantum := t.quantum,
      vr := some t.vruntime, score := t.subqueue_score, reason := reason }

def addLog (r : LogRow) (s : Sim) : Sim := { s with logsRev := r :: s.logsRev }

/-! ## AI classification, scoring and policy mapping -/

/-- Output of the four external classifiers for one task (the `Classifier`
capability); passing the same function to two runs is the "identical
classifier outputs" hypothesis. -/
structure Labels where
  resource : String
  inter : String
  priority : String
  execution : String
deriving DecidableEq

def rNum (x : Option String) : ℚ :=
  match x with
  | some "CPU-bound" => 3
  | some "Mixed" => 2
  | some "IO-bound" => 1
  | _ => 2

def iNum (x : Option String) : ℚ :=
  match x with
  | some "Real-time" => 4
  | some "Interactive" => 3
  | some "Other" => 2
  | some "Background" => 3 / 2
  | some "Batch" => 1
  | _ => 2

def eNum (x : Option String) : ℚ :=
  match x with
  | some "Short" => 3
  | some "Medium" => 2
  | some "Long" => 1
  | _ => 2

def pNum (x : Option String) : ℚ :=
  match x with
  | some "High" => 3
  | some "Medium" => 2
  | some "Low" => 1
  | _ => 2

/-- `_compute_subqueue_score`: `0.20·R + 0.35·I + 0.20·E + 0.30·P`. -/
def computeSubqueueScore (t : Task) : ℚ :=
  (1 / 5) * rNum t.resource_type + (7 / 20) * iNum t.interactivity +
    (1 / 5) * eNum t.execution_class + (3 / 10) * pNum t.priority_class

/-- The RR quantum computation as written inside `AIScheduler.admit`. -/
def rrQuantumAdmitAI (score : ℚ) : ℤ :=
  if score ≤ 5 / 2 then 100
  else if score ≥ 63 / 20 then 200
  else pyInt (100 + (score - 5 / 2) / (63 / 20 - 5 / 2) * (200 - 100))

/-- The RR quantum computation as written inside
`AIScheduler._dispatch_to_core`. -/
def rrQuantumDispatchAI (score : ℚ) : ℤ :=
  if score ≤ 5 / 2 then 100
  else if score ≥ 63 / 20 then 200
  else pyInt (100 + (score - 5 / 2) / (63 / 20 - 5 / 2) * (200 - 100))

/-- `AIScheduler._assign_scheduler_and_subqueue`. -/
def assignSchedulerAndSubqueue (t : Task) : Task :=
  let schedPol := pyUpper (t.features.schedulingPolicy.getD "")
  if schedPol = "SCHED_FIFO" then
    { t with assigned_scheduler := some .FIFO, subqueue := some "fifo_1" }
  else if schedPol = "SCHED_IDLE" then
    { t with assigned_scheduler := some .IDLE, subqueue := some "idle" }
  else
    let score := t.subqueue_score.getD 0
    if t.interactivity = some "Real-time" then
      { t with assigned_scheduler := some .FIFO, subqueue := some "fifo_1" }
    else if (t.interactivity = some "Interactive" ∧ t.execution_class = some "Short" ∧
        t.priority_class = some "High") ∨ score > 13 / 5 then
      { t with assigned_scheduler := some .RR, subqueue := some "rr_1" }
    else
      { t with assigned_scheduler := some .CFS, subqueue := some "cfs_1" }

/-! ## Admission -/

/-- `_classify_task` with the external classifier capability `oracle`. -/
def classifyTask (oracle : Features → Labels) (t : Task) : Task :=
  let L := oracle t.features
  { t with resource_type := some L.resource, interactivity := some L.inter,
           priority_class := some L.priority, execution_class := some L.execution }

/-- The `remaining` estimate both `admit`s perform when `remaining == 0`. -/
def estimateRemaining (t : Task) : Task :=
  if t.remaining = 0 then
    { t with remaining :=
        match t.features.totalTimeTicks with
        | some v => pyInt v
        | none => if t.total_time = 0 then 1 else t.total_time }
  else t

/-- The explicit `Scheduling_Policy` branch shared by both `admit`s; the AI
variant falls through to `_assign_scheduler_and_subqueue`, the baseline to
CFS. -/
def assignByPolicy (elseFn : Task → Task) (t : Task) : Task :=
  let schedPol := pyUpper (t.features.schedulingPolicy.getD "")
  if schedPol = "SCHED_FIFO" then
    { t with assigned_scheduler := some .FIFO, subqueue := some "fifo_1" }
  else if schedPol = "SCHED_RR" then
    { t with assigned_scheduler := some .RR, subqueue := some "rr_1" }
  else if schedPol = "SCHED_IDLE" then
    { t with assigned_scheduler := some .IDLE, subqueue := some "idle" }
  else elseFn t

/-- `task.vruntime = float(features.get("se.vruntime", task.vruntime or 0.0))`
and similarly for `weight` with default `NICE0_WEIGHT = 1024`. -/
def setVrWeight (t : Task) : Task :=
  { t with vruntime := t.features.seVruntime.getD t.vruntime,
           weight := t.features.seLoadWeight.getD (if t.weight = 0 then 1024 else t.weight) }

/-- Task-level part of admission: everything `admit` does to the task object
before enqueueing, in each variant's own order. -/
def admitTask (mode : Mode) (oracle : Features → Labels) (rrq : ℤ) (t0 : Task) : Task :=
  match mode with
  | .baseline =>
    let t1 := assignByPolicy
      (fun t => { t with assigned_scheduler := some .CFS, subqueue := some "cfs_1" }) t0
    let t2 := estimateRemaining t1
    let t3 := setVrWeight t2
    if t3.assigned_scheduler = some .RR then { t3 with quantum := some (max 1 rrq) }
    else { t3 with quantum := none }
  | .ai =>
    let t1 := classifyTask oracle t0
    let t2 := { t1 with subqueue_score := some (computeSubqueueScore t1) }
    let t3 := estimateRemaining t2
    let t4 := assignByPolicy assignSchedulerAndSubqueue t3
    let t5 := setVrWeight t4
    if t5.assigned_scheduler = some .RR then
      { t5 with quantum := some (rrQuantumAdmitAI (t5.subqueue_score.getD 2)) }
    else t5

/-- `_enqueue_task`: place the (fully set up) task into its queue and log. -/
def enqueueTask (t : Task) (s : Sim) : Sim :=
  let s' :=
    match t.assigned_scheduler.getD .CFS with
    | .CFS => { s with cfsQ := s.cfsQ ++ [⟨t.vruntime, s.counter, t.pid⟩],
                       counter := s.counter + 1 }
    | .FIFO => { s with fifoQ := s.fifoQ ++ [t.pid] }
    | .RR => { s with rrQ := s.rrQ ++ [t.pid] }
    | .IDLE => { s with idleQ := s.idleQ ++ [t.pid] }
  addLog (mkLog s'.time "ENQUEUE" none (some t) none) s'

/-- `admit`: register in `task_map`, set the task up, log `ADMIT`, enqueue. -/
def admitFn (mode : Mode) (oracle : Features → Labels) (t0 : Task) (s : Sim) : Sim :=
  let t := admitTask mode oracle s.rrQuantumCfg t0
  let s1 := setTask t s
  let s2 := addLog (mkLog s1.time "ADMIT" none (some t) none) s1
  enqueueTask t s2

/-! ## Pick, dispatch, run one tick -/

/-- `_pick_task_for_core`: first non-empty class in priority order
`[FIFO, RR, CFS, IDLE]` (every core uses the default order; each class has a
single subqueue). -/
def pick (s : Sim) : Option Sched :=
  if s.fifoQ ≠ [] then some .FIFO
  else if s.rrQ ≠ [] then some .RR
  else if s.cfsQ ≠ [] then some .CFS
  else if s.idleQ ≠ [] then some .IDLE
  else none

/-- The `runnable_set_weight` sum of `_dispatch_to_core`: total weight of the
entries currently in the CFS heaps (entries with non-positive weight counted
as `NICE0_WEIGHT`); the dispatched task has already been popped when this is
computed. -/
def runnableSetWeight (s : Sim) : ℚ :=
  (s.cfsQ.map fun e =>
    match lookupTask s e.pid with
    | some u => if u.weight > 0 then u.weight else 1024
    | none => 1024).sum

/-- Quantum-sizing formulas of `_dispatch_to_core`, computed after the task
has been removed from its queue (`s` holds the post-pop state). -/
def quantumAtDispatch (mode : Mode) (sched : Sched) (s : Sim) (t : Task) : ℤ :=
  match sched with
  | .CFS =>
    let denom : ℚ :=
      if runnableSetWeight s ≤ 0 then (if t.weight = 0 then 1024 else t.weight)
      else runnableSetWeight s
    let proportion : ℚ := (if t.weight = 0 then 1024 else t.weight) / denom
    let baseSlice : ℤ := pyInt (48 * proportion)
    match mode with
    | .baseline => max 1 baseSlice
    | .ai =>
      let score := t.subqueue_score.getD 2
      let execScale : ℚ :=
        match t.execution_class with
        | some "Short" => 1
        | some "Medium" => 3 / 2
        | some "Long" => 2
        | _ => 3 / 2
      let scoreScale : ℚ := 1 + (1 / 5) * (score - 2)
      max 1 (pyInt ((baseSlice : ℚ) * execScale * scoreScale))
  | .FIFO => max 1 t.remaining
  | .RR =>
    match mode with
    | .baseline => max 1 s.rrQuantumCfg
    | .ai => rrQuantumDispatchAI (t.subqueue_score.getD 2)
  | .IDLE => max 1 t.remaining

/-- Tail of `_dispatch_to_core` once the task is in hand: set quantum and
`first_start`, occupy the core, count the context switch, log `DISPATCH`. -/
def dispatchCommon (mode : Mode) (cid : ℕ) (sched : Sched) (t : Task) (s : Sim) : Sim :=
  let q := quantumAtDispatch mode sched s t
  let t' := { t with quantum := some q,
                     first_start :=
                       match t.first_start with
                       | none => some s.time
                       | some x => some x }
  let s1 := setTask t' s
  let s2 := { s1 with cores := s1.cores.set cid ⟨some t.pid, q⟩,
                      contextSwitches := s1.contextSwitches + 1 }
  addLog (mkLog s2.time "DISPATCH" (some cid) (some t') none) s2

/-- `_dispatch_to_core`: dequeue per class (CFS via lazy-invalidation pop),
then `dispatchCommon`. -/
def dispatchFn (mode : Mode) (cid : ℕ) (sched : Sched) (s : Sim) : Sim :=
  match sched with
  | .CFS =>
    match cfsPop (liveVr s) s.cfsQ s.counter with
    | some (some e, rest, ctr') =>
      let s1 := { s with cfsQ := rest, counter := ctr' }
      match lookupTask s1 e.pid with
      | some t => dispatchCommon mode cid .CFS t s1
      | none => s1
    | _ => s
  | .FIFO =>
    match s.fifoQ with
    | [] => s
    | p :: restQ =>
      let s1 := { s with fifoQ := restQ }
      match lookupTask s1 p with
      | some t => dispatchCommon mode cid .FIFO t s1
      | none => s1
  | .RR =>
    match s.rrQ with
    | [] => s
    | p :: restQ =>
      let s1 := { s with rrQ := restQ }
      match lookupTask s1 p with
      | some t => dispatchCommon mode cid .RR t s1
      | none => s1
  | .IDLE =>
    match s.idleQ with
    | [] => s
    | p :: restQ =>
      let s1 := { s with idleQ := restQ }
      match lookupTask s1 p with
      | some t => dispatchCommon mode cid .IDLE t s1
      | none => s1

/-- `_update_vruntime` (with the weight clamp to `1.0`); the AI variant scales
the increment by `2.0 / max(0.5, subqueue_score)`. -/
def updateVruntime (mode : Mode) (t : Task) : Task :=
  let t1 := if t.weight ≤ 0 then { t with weight := 1 } else t
  match mode with
  | .baseline => { t1 with vruntime := t1.vruntime + 1024 / t1.weight }
  | .ai =>
    let baseInc : ℚ := 1024 / t1.weight
    let score := t1.subqueue_score.getD 2
    let scoreScale : ℚ := 2 / max (1 / 2) score
    { t1 with vruntime := t1.vruntime + baseInc * scoreScale }

/-- `_run_one_tick_on_core`.  Each Python control path is rendered as a single
state literal over the incoming state `s` (the net effect of its sequence of
in-place mutations), which also keeps kernel evaluation of long runs cheap. -/
def runOneTickFn (mode : Mode) (cid : ℕ) (s : Sim) : Sim :=
  match s.cores[cid]? with
  | none => s
  | some core =>
    match core.runningPid with
    | none => s
    | some p =>
      match lookupTask s p with
      | none => s
      | some t =>
        let t1 := { t with remaining := max 0 (t.remaining - 1),
                           total_run := t.total_run + 1 }
        let tl' := max 0 (core.timeLeft - 1)
        let t2 := if t1.assigned_scheduler = some .CFS then updateVruntime mode t1 else t1
        let runRow := mkLog s.time "RUN" (some cid) (some t2) none
        if t2.remaining ≤ 0 then
          let t3 := { t2 with completion_time := some s.time }
          { s with tasks := updBindings p t3 s.tasks,
                   cores := s.cores.set cid ⟨none, 0⟩,
                   completed :=
                     if s.completed.contains p then s.completed else s.completed ++ [p],
                   logsRev := mkLog s.time "COMPLETE" (some cid) (some t3) none ::
                     runRow :: s.logsRev }
        else if tl' ≤ 0 then
          match t2.assigned_scheduler with
          | some .RR =>
            { s with tasks := updBindings p t2 s.tasks,
                     cores := s.cores.set cid ⟨none, 0⟩,
                     rrQ := s.rrQ ++ [p],
                     logsRev := mkLog s.time "PREEMPT" (some cid) (some t2)
                       (some "quantum_expired") :: runRow :: s.logsRev }
          | some .CFS =>
            { s with tasks := updBindings p t2 s.tasks,
                     cores := s.cores.set cid ⟨none, 0⟩,
                     cfsQ := s.cfsQ ++ [⟨t2.vruntime, s.counter, p⟩],
                     counter := s.counter + 1,
                     logsRev := mkLog s.time "PREEMPT" (some cid) (some t2)
                       (some "cfs_quantum_expired") :: runRow :: s.logsRev }
          | some .FIFO =>
            { s with tasks := updBindings p t2 s.tasks,
                     cores := s.cores.set cid ⟨none, 0⟩,
                     fifoQ := p :: s.fifoQ,
                     logsRev := mkLog s.time "PREEMPT" (some cid) (some t2)
                       (some "fifo_preempt") :: runRow :: s.logsRev }
          | _ =>
            { s with tasks := updBindings p t2 s.tasks,
                     cores := s.cores.set cid ⟨none, 0⟩,
                     logsRev := runRow :: s.logsRev }
        else
          { s with tasks := updBindings p t2 s.tasks,
                   cores := s.cores.set cid ⟨some p, tl'⟩,
                   logsRev := runRow :: s.logsRev }

/-- One core's share of `tick`: dispatch if idle, then run one tick. -/
def coreStep (mode : Mode) (cid : ℕ) (s : Sim) : Sim :=
  let s1 :=
    match s.cores[cid]? with
    | some core =>
      match core.runningPid with
      | none =>
        match pick s with
        | some sched => dispatchFn mode cid sched s
        | none => s
      | some _ => s
    | none => s
  runOneTickFn mode cid s1

/-- `tick(current_time)`: set the clock, then serve cores in id order. -/
def tickFn (mode : Mode) (t : ℤ) (s : Sim) : Sim :=
  let s0 := { s with time := t }
  (List.range s0.cores.length).foldl (fun acc cid => coreStep mode cid acc) s0

/-! ## Simulation driver (`ai_simulator.py` loop) -/

/-- Admit a batch of rows in order; each constructed task gets the next uid
from the stream (modelling `uuid.uuid4()`). -/
def admitRows (mode : Mode) (oracle : Features → Labels) (uids : ℕ → ℕ)
    (rows : List Features) (s : Sim) : Sim :=
  rows.foldl (fun acc row => admitFn mode oracle (Task.init row (uids acc.tasks.length)) acc) s

/-- One driver iteration at tick `t`: admit this tick's arrivals, then tick. -/
def simStep (mode : Mode) (oracle : Features → Labels) (uids : ℕ → ℕ)
    (allRows : List Features) (t : ℤ) (s : Sim) : Sim :=
  tickFn mode t
    (admitRows mode oracle uids (allRows.filter fun r => r.arrivalSec.getD 0 = t) s)

def runTicks (mode : Mode) (oracle : Features → Labels) (uids : ℕ → ℕ)
    (rows : List Features) : ℤ → ℕ → Sim → Sim
  | _, 0, s => s
  | t, n + 1, s => runTicks mode oracle uids rows (t + 1) n (simStep mode oracle uids rows t s)

/-- Run the driver loop for `nTicks` ticks from a fresh scheduler. -/
def runSim (mode : Mode) (oracle : Features → Labels) (uids : ℕ → ℕ)
    (rows : List Features) (numCores : ℕ) (rrq : ℤ) (nTicks : ℕ) : Sim :=
  runTicks mode oracle uids rows 0 nTicks (initSim numCores rrq)

/-! ## Metrics export -/

structure MetricsRow where
  pid : ℕ
  name : String
  arrival : ℤ
  first_start : Option ℤ
  completion : Option ℤ
  execution_time : ℤ
  waiting : Option ℤ
  turnaround : Option ℤ
  response : Option ℤ
  stretch : Option ℚ
  scheduler : Option Sched
  subqueue : Option String
deriving DecidableEq

/-- `export_task_metrics`: one row per completed task, in `task_map` order. -/
def exportTaskMetrics (s : Sim) : List MetricsRow :=
  s.tasks.filterMap fun pr =>
    if s.completed.contains pr.1 then
      let t := pr.2
      let waiting := t.first_start.map fun f => f - t.arrival_time
      let turnaround := t.completion_time.map fun c => c - t.arrival_time
      some { pid := pr.1, name := t.name, arrival := t.arrival_time,
             first_start := t.first_start, completion := t.completion_time,
             execution_time := t.total_run, waiting := waiting,
             turnaround := turnaround, response := waiting,
             stretch :=
               if (0 : ℤ) < t.total_run then turnaround.map fun tr => (tr : ℚ) / (t.total_run : ℚ)
               else none,
             scheduler := t.assigned_scheduler, subqueue := t.subqueue }
    else none

/-! ## Association-list store lemmas -/

lemma lookup_updBindings_self (p : ℕ) (t : Task) :
    ∀ l : List (ℕ × Task), (updBindings p t l).lookup p = some t := by
  intro l
  induction l with
  | nil => simp [updBindings, List.lookup_cons]
  | cons pr rest ih =>
    obtain ⟨q, u⟩ := pr
    by_cases h : q = p
    · subst h
      simp [updBindings, List.lookup_cons]
    · have hpq : (p == q) = false := beq_false_of_ne (Ne.symm h)
      simp only [updBindings, if_neg h, List.lookup_cons, hpq]
      exact ih

lemma lookup_updBindings_ne (p q : ℕ) (t : Task) (h : q ≠ p) :
    ∀ l : List (ℕ × Task), (updBindings p t l).lookup q = l.lookup q := by
  intro l
  induction l with
  | nil =>
    have hqp : (q == p) = false := beq_false_of_ne h
    simp [updBindings, List.lookup_cons, hqp]
  | cons pr rest ih =>
    obtain ⟨k, u⟩ := pr
    by_cases hk : k = p
    · subst hk
      have hq : (q == k) = false := beq_false_of_ne h
      simp [updBindings, List.lookup_cons, hq]
    · simp only [updBindings, if_neg hk, List.lookup_cons]
      cases hqk : q == k with
      | true => rfl
      | false => exact ih

lemma updBindings_collapse (p : ℕ) (t u : Task) :
    ∀ l : List (ℕ × Task), updBindings p t (updBindings p u l) = updBindings p t l := by
  intro l
  induction l with
  | nil => simp [updBindings]
  | cons pr rest ih =>
    obtain ⟨k, v⟩ := pr
    by_cases hk : k = p
    · subst hk; simp [updBindings]
    · simp [updBindings, hk, ih]

lemma updBindings_self (p : ℕ) (t : Task) :
    ∀ l : List (ℕ × Task), l.lookup p = some t → updBindings p t l = l := by
  intro l
  induction l with
  | nil => simp [List.lookup_nil]
  | cons pr rest ih =>
    obtain ⟨k, v⟩ := pr
    intro hl
    by_cases hk : k = p
    · subst hk
      rw [List.lookup_cons] at hl
      simp only [beq_self_eq_true] at hl
      have hv : v = t := by
        cases hl
        rfl
      simp [updBindings, hv]
    · have hpk : (p == k) = false := beq_false_of_ne (Ne.symm hk)
      rw [List.lookup_cons] at hl
      simp only [hpk] at hl
      simp [updBindings, hk, ih hl]

/-! ## Shared concrete material for scenario claims -/

/-- A classifier capability that always answers the per-category safe
defaults (what `_classify_task` falls back to). -/
def defaultsOracle : Features → Labels := fun _ => ⟨"Mixed", "Other", "Medium", "Medium"⟩

/-- A fixed uid stream (uids never influence behaviour; claim C9). -/
def uids0 : ℕ → ℕ := fun _ => 0

section ClaimEvaluation

attribute [local semireducible] Rat.mul Rat.add Rat.inv Rat.sub Rat.ofScientific

/-! ### C5 — `total_time` derivation in `Task.__init__` -/

/-- C5 counterexample: for a row where both `Total_Time_Ticks` and
`se.sum_exec_runtime` are absent, the constructed task has `total_time = 0`,
not `1` as claimed. -/
theorem C5_total_time_counterexample :
    (Task.init { pid := 7 } 0).total_time = 0 ∧ (Task.init { pid := 7 } 0).total_time ≠ 1 := by
  decide

/-- C5 (amended): `Task.__init__` derives `total_time` as
`int(Total_Time_Ticks)` when that value is positive, else
`int(se.sum_exec_runtime)`; there is no floor at 1, so a row with both fields
absent (or zero) yields `total_time = 0`. -/
theorem C5_total_time_amended (row : Features) (uid : ℕ) :
    (0 < row.totalTimeTicks.getD 0 →
      (Task.init row uid).total_time = pyInt (row.totalTimeTicks.getD 0)) ∧
    (row.totalTimeTicks.getD 0 ≤ 0 →
      (Task.init row uid).total_time = pyInt (row.sumExecRuntime.getD 0)) ∧
    (row.totalTimeTicks = none → row.sumExecRuntime = none →
      (Task.init row uid).total_time = 0) := by
  refine ⟨fun h => ?_, fun h => ?_, fun h1 h2 => ?_⟩
  · simp [Task.init, h]
  · have : ¬ (0 : ℚ) < row.totalTimeTicks.getD 0 := not_lt.mpr h
    simp [Task.init, this]
  · simp [Task.init, h1, h2, pyInt]

theorem C5_total_time_witness :
    (Task.init { pid := 7 } 0).total_time = 0 :=
  (C5_total_time_amended { pid := 7 } 0).2.2 rfl rfl

/-! ### C6 — `_cfs_pop_min` terminates and returns a valid entry -/

/-- C6: on any heap whose entries reference tasks (`live` gives each task's
current vruntime), `_cfs_pop_min` terminates — fuel `length + 1` is never
exhausted — and on a non-empty heap it returns a task, never `None`, namely
one whose popped snapshot vruntime matches the task's live vruntime within
`1e-6`. -/
theorem C6_cfs_pop_min_terminates (live : ℕ → ℚ) (heap : List Entry) (ctr : ℕ)
    (hne : heap ≠ []) :
    ∃ e rest c', cfsPop live heap ctr = some (some e, rest, c') ∧
      |live e.pid - e.vr| < tol :=
  cfsPop_succeeds live heap ctr hne

theorem C6_cfs_pop_min_witness :
    ∃ e rest c',
      cfsPop (fun _ => (0 : ℚ)) [⟨5, 0, 7⟩, ⟨0, 1, 9⟩] 2 = some (some e, rest, c') ∧
      |(fun _ => (0 : ℚ)) e.pid - e.vr| < tol :=
  C6_cfs_pop_min_terminates (fun _ => (0 : ℚ)) [⟨5, 0, 7⟩, ⟨0, 1, 9⟩] 2 (by decide)

/-! ### C7 — AI RR quantum: admit and dispatch agree, and match the
piecewise-linear form -/

/-- The spec's description of the piecewise-linear RR quantum. -/
def rrQuantumPiecewise (score : ℚ) : ℤ :=
  if score < 5 / 2 then 100
  else if score > 63 / 20 then 200
  else pyInt (100 + (score - 5 / 2) / (63 / 20 - 5 / 2) * 100)

/-- C7: the RR quantum computed at admit and the one computed at dispatch are
the same function of `subqueue_score`, and both equal the claimed
piecewise-linear form (100 below `2.5`, 200 above `3.15`, truncated linear
interpolation in between). -/
theorem C7_rr_quantum_same (score : ℚ) :
    rrQuantumAdmitAI score = rrQuantumDispatchAI score ∧
    rrQuantumAdmitAI score = rrQuantumPiecewise score := by
  refine ⟨rfl, ?_⟩
  unfold rrQuantumAdmitAI rrQuantumPiecewise
  rcases lt_trichotomy score (5 / 2) with h | h | h
  · simp [le_of_lt h, h]
  · subst h
    norm_num
    decide
  · have h1 : ¬ score ≤ 5 / 2 := not_le.mpr h
    have h2 : ¬ score < 5 / 2 := by linarith
    rcases lt_trichotomy score (63 / 20) with h3 | h3 | h3
    · have h4 : ¬ score ≥ 63 / 20 := not_le.mpr h3
      have h5 : ¬ score > 63 / 20 := by linarith
      simp [h1, h2, h4, h5]
      norm_num
    · subst h3
      norm_num
      decide
    · have h4 : score ≥ 63 / 20 := le_of_lt h3
      simp [h1, h2, h4, h3]

end ClaimEvaluation

/-! ## Field-preservation helper lemmas for admission -/

lemma enqueueTask_tasks (t : Task) (s : Sim) : (enqueueTask t s).tasks = s.tasks := by
  unfold enqueueTask addLog
  cases t.assigned_scheduler.getD .CFS <;> rfl

lemma admitFn_tasks (mode : Mode) (oracle : Features → Labels) (t0 : Task) (s : Sim) :
    (admitFn mode oracle t0 s).tasks =
      updBindings (admitTask mode oracle s.rrQuantumCfg t0).pid
        (admitTask mode oracle s.rrQuantumCfg t0) s.tasks := by
  unfold admitFn addLog setTask
  rw [enqueueTask_tasks]

lemma estimateRemaining_eta (t : Task) :
    ∃ r, estimateRemaining t =
      { t with remaining := r } := by
  unfold estimateRemaining
  split
  · exact ⟨_, rfl⟩
  · exact ⟨t.remaining, rfl⟩

lemma estimateRemaining_pid (t : Task) : (estimateRemaining t).pid = t.pid := by
  unfold estimateRemaining; split <;> rfl

lemma estimateRemaining_features (t : Task) :
    (estimateRemaining t).features = t.features := by
  unfold estimateRemaining; split <;> rfl

lemma estimateRemaining_interactivity (t : Task) :
    (estimateRemaining t).interactivity = t.interactivity := by
  unfold estimateRemaining; split <;> rfl

lemma estimateRemaining_execution_class (t : Task) :
    (estimateRemaining t).execution_class = t.execution_class := by
  unfold estimateRemaining; split <;> rfl

lemma estimateRemaining_priority_class (t : Task) :
    (estimateRemaining t).priority_class = t.priority_class := by
  unfold estimateRemaining; split <;> rfl

lemma estimateRemaining_subqueue_score (t : Task) :
    (estimateRemaining t).subqueue_score = t.subqueue_score := by
  unfold estimateRemaining; split <;> rfl

section ClaimScenarios

attribute [local semireducible] Rat.mul Rat.add Rat.inv Rat.sub Rat.ofScientific

/-! ### C1 — baseline CFS quantum at dispatch -/

def rowsC1 : List Features :=
  [{ pid := 1, arrivalSec := some 0, totalTimeTicks := some 100,
     schedulingPolicy := some "SCHED_OTHER" },
   { pid := 2, arrivalSec := some 0, totalTimeTicks := some 100,
     schedulingPolicy := some "SCHED_OTHER" }]

/-- The C1 scenario state just before the first tick: both weight-1024 CFS
tasks admitted on a one-core machine. -/
def preC1 : Sim := admitRows .baseline defaultsOracle uids0 rowsC1 (initSim 1 100)

/-- The C1 scenario after the first tick of the driver loop. -/
def simC1 : Sim := runSim .baseline defaultsOracle uids0 rowsC1 1 100 1

/-- C1 counterexample: in the two-task scenario the first dispatch sets
quantum 48, not the claimed `floor(48·1024/2048) = 24` — the dispatched
task's weight is not part of the denominator. -/
theorem C1_quantum_counterexample :
    ((simC1.logList.find? fun r => r.event == "DISPATCH").map fun r =>
      (r.time, r.pid, r.quantum)) = some ((0 : ℤ), some 1, some 48) ∧
    some (48 : ℤ) ≠ some 24 := by
  constructor
  · decide
  · decide

/-- C1 (amended): at a baseline CFS dispatch the quantum is
`max(min_granularity, int(48 · w / S))` where `w` is the task's weight (or
1024 when zero) and `S` sums the weights of the entries left in the CFS heap
after the dispatched task was popped (non-positive entry weights counted as
1024), falling back to `w` when that sum is non-positive.  In the two-task
scenario this gives 48 (see the counterexample theorem). -/
theorem C1_quantum_amended (cid : ℕ) (s : Sim) (e : Entry) (rest : List Entry)
    (c' : ℕ) (t : Task)
    (hpop : cfsPop (liveVr s) s.cfsQ s.counter = some (some e, rest, c'))
    (ht : lookupTask s e.pid = some t) (hkey : t.pid = e.pid) :
    ∃ t', lookupTask (dispatchFn .baseline cid .CFS s) e.pid = some t' ∧
      t'.quantum = some (max 1 (pyInt (48 *
        ((if t.weight = 0 then 1024 else t.weight) /
          (if runnableSetWeight { s with cfsQ := rest, counter := c' } ≤ 0
           then (if t.weight = 0 then 1024 else t.weight)
           else runnableSetWeight { s with cfsQ := rest, counter := c' }))))) := by
  have htasks : lookupTask { s with cfsQ := rest, counter := c' } e.pid = some t := ht
  have hd : dispatchFn .baseline cid .CFS s =
      dispatchCommon .baseline cid .CFS t { s with cfsQ := rest, counter := c' } := by
    unfold dispatchFn
    simp only [hpop, htasks]
  refine ⟨{ t with
      quantum := some (quantumAtDispatch .baseline .CFS { s with cfsQ := rest, counter := c' } t),
      first_start :=
        match t.first_start with
        | none => some ({ s with cfsQ := rest, counter := c' } : Sim).time
        | some x => some x }, ?_, ?_⟩
  · rw [hd]
    unfold dispatchCommon setTask lookupTask
    dsimp only []
    rw [hkey]
    exact lookup_updBindings_self e.pid _ _
  · rfl

theorem C1_quantum_witness :
    ∃ t', lookupTask (dispatchFn .baseline 0 .CFS preC1) 1 = some t' ∧
      t'.quantum = some 48 := by
  cases ht : lookupTask preC1 1 with
  | none => exact absurd ht (by decide)
  | some t =>
    have hpid : t.pid = 1 := by
      have hp : (lookupTask preC1 1).map Task.pid = some 1 := by decide
      rw [ht] at hp
      simpa using hp
    have hw : t.weight = 1024 := by
      have hp : (lookupTask preC1 1).map Task.weight = some 1024 := by decide
      rw [ht] at hp
      simpa using hp
    obtain ⟨t', h1, h2⟩ :=
      C1_quantum_amended 0 preC1 ⟨0, 0, 1⟩ [⟨0, 1, 2⟩] 2 t (by decide) ht hpid
    refine ⟨t', h1, ?_⟩
    rw [h2, hw]
    norm_num
    rw [show runnableSetWeight { preC1 with cfsQ := [⟨0, 1, 2⟩], counter := 2 } = 1024 by decide]
    decide

/-! ### C2 — turnaround of a completed task -/

def rowsC2 : List Features :=
  [{ pid := 1, arrivalSec := some 0, totalTimeTicks := some 10,
     schedulingPolicy := some "SCHED_FIFO" }]

/-- The C2 scenario: one FIFO task of 10 ticks on an idle 4-core machine,
run for 10 driver ticks. -/
def simC2 : Sim := runSim .baseline defaultsOracle uids0 rowsC2 4 100 10

/-- C2 counterexample: the single-FIFO-task scenario completes at t = 9 and
its exported turnaround is 9 (= `total_time − 1`), not 10, and
`turnaround ≥ total_time` fails. -/
theorem C2_turnaround_counterexample :
    ((exportTaskMetrics simC2).map fun r => (r.pid, r.turnaround)) = [(1, some 9)] ∧
    some (9 : ℤ) ≠ some 10 ∧ ¬ ((10 : ℤ) ≤ 9) := by
  refine ⟨by decide, by decide, by decide⟩

/-- C2 (amended): for every exported completed task,
`turnaround = completion_time − arrival_time`; in the scenario the task is
dispatched at t = 0 on core 0, completes at t = 9, and its exported
turnaround is 9 = `total_time − 1` (the completion tick is the tick during
which the last unit of work runs). -/
theorem C2_turnaround_amended :
    (∀ s : Sim, ∀ r ∈ exportTaskMetrics s, ∀ c, r.completion = some c →
      r.turnaround = some (c - r.arrival)) ∧
    ((simC2.logList.find? fun r => r.event == "DISPATCH").map fun r =>
      (r.time, r.core, r.pid)) = some ((0 : ℤ), some 0, some 1) ∧
    ((simC2.logList.filter fun r => r.event == "COMPLETE").map fun r =>
      (r.time, r.pid)) = [((9 : ℤ), some 1)] ∧
    ((exportTaskMetrics simC2).map fun r =>
      (r.pid, r.turnaround, r.waiting, r.completion)) = [(1, some 9, some 0, some 9)] ∧
    simC2.contextSwitches = 1 := by
  refine ⟨?_, by decide, by decide, by decide, by decide⟩
  intro s r hr c hc
  unfold exportTaskMetrics at hr
  rw [List.mem_filterMap] at hr
  obtain ⟨pr, _, hpr⟩ := hr
  split at hpr
  · cases hpr
    dsimp only [] at hc ⊢
    rw [hc]
    rfl
  · cases hpr

/-- The export row of the C2 scenario, spelled out. -/
def rowC2out : MetricsRow :=
  { pid := 1, name := "T1", arrival := 0, first_start := some 0,
    completion := some 9, execution_time := 10, waiting := some 0,
    turnaround := some 9, response := some 0, stretch := some (9 / 10),
    scheduler := some .FIFO, subqueue := some "fifo_1" }

theorem C2_turnaround_witness : rowC2out.turnaround = some (9 - rowC2out.arrival) :=
  C2_turnaround_amended.1 simC2 rowC2out (by decide) 9 rfl

/-! ### C4 — counterexample to `remaining + total_run = total_time` -/

/-- A task admitted from a row with neither `Total_Time_Ticks` nor
`se.sum_exec_runtime`. -/
def simC4bad : Sim :=
  admitFn .baseline defaultsOracle (Task.init { pid := 7 } 0) (initSim 1 100)

/-- C4 counterexample: immediately after admission of a row with no work
columns, `remaining = 1`, `total_run = 0` but `total_time = 0`, so
`remaining + total_run = total_time` fails. -/
theorem C4_invariant_counterexample :
    ((lookupTask simC4bad 7).map fun t => (t.remaining + t.total_run, t.total_time)) =
      some ((1 : ℤ), (0 : ℤ)) ∧ (1 : ℤ) ≠ 0 := by
  refine ⟨by decide, by decide⟩

/-! ### C8 — AI assignment rules -/

/-- The subqueue score determined by a set of classifier labels (what
`_compute_subqueue_score` yields once `_classify_task` stored them). -/
def labelScore (L : Labels) : ℚ :=
  (1 / 5) * rNum (some L.resource) + (7 / 20) * iNum (some L.inter) +
    (1 / 5) * eNum (some L.execution) + (3 / 10) * pNum (some L.priority)

/-- Task-level core of C8: for a task whose `Scheduling_Policy` is none of
`SCHED_FIFO`, `SCHED_RR`, `SCHED_IDLE`, the AI admission evaluates the
remaining rules in order: Real-time interactivity gives FIFO;
(Interactive ∧ Short ∧ High) or score above 2.6 gives RR; otherwise CFS. -/
lemma admitTask_ai_spec (oracle : Features → Labels) (rrq : ℤ) (t0 : Task)
    (h1 : pyUpper (t0.features.schedulingPolicy.getD "") ≠ "SCHED_FIFO")
    (h2 : pyUpper (t0.features.schedulingPolicy.getD "") ≠ "SCHED_RR")
    (h3 : pyUpper (t0.features.schedulingPolicy.getD "") ≠ "SCHED_IDLE") :
    (admitTask .ai oracle rrq t0).pid = t0.pid ∧
    (admitTask .ai oracle rrq t0).subqueue_score = some (labelScore (oracle t0.features)) ∧
    (admitTask .ai oracle rrq t0).assigned_scheduler = some (
      if (oracle t0.features).inter = "Real-time" then Sched.FIFO
      else if ((oracle t0.features).inter = "Interactive" ∧
          (oracle t0.features).execution = "Short" ∧
          (oracle t0.features).priority = "High") ∨
          labelScore (oracle t0.features) > 13 / 5 then Sched.RR
      else Sched.CFS) := by
  unfold admitTask
  dsimp only [classifyTask]
  rw [show computeSubqueueScore
      { t0 with resource_type := some (oracle t0.features).resource,
                interactivity := some (oracle t0.features).inter,
                priority_class := some (oracle t0.features).priority,
                execution_class := some (oracle t0.features).execution } =
      labelScore (oracle t0.features) from rfl]
  unfold assignByPolicy
  rw [estimateRemaining_features]
  dsimp only []
  rw [if_neg h1, if_neg h2, if_neg h3]
  unfold assignSchedulerAndSubqueue
  rw [estimateRemaining_features]
  dsimp only []
  rw [if_neg h1, if_neg h3]
  rw [estimateRemaining_interactivity, estimateRemaining_execution_class,
    estimateRemaining_priority_class, estimateRemaining_subqueue_score]
  dsimp only []
  by_cases hRT : (oracle t0.features).inter = "Real-time"
  · rw [if_pos (show some (oracle t0.features).inter = some "Real-time" from by rw [hRT]),
      if_pos hRT]
    refine ⟨?_, ?_, ?_⟩ <;>
    · dsimp only [setVrWeight]
      simp [estimateRemaining_pid, estimateRemaining_subqueue_score]
  · rw [if_neg (show ¬ some (oracle t0.features).inter = some "Real-time" from
        fun h => hRT (Option.some.inj h)), if_neg hRT]
    by_cases hP2 : ((oracle t0.features).inter = "Interactive" ∧
        (oracle t0.features).execution = "Short" ∧
        (oracle t0.features).priority = "High") ∨
        labelScore (oracle t0.features) > 13 / 5
    · have hP2c : (some (oracle t0.features).inter = some "Interactive" ∧
          some (oracle t0.features).execution = some "Short" ∧
          some (oracle t0.features).priority = some "High") ∨
          (some (labelScore (oracle t0.features))).getD 0 > 13 / 5 := by
        rcases hP2 with ⟨ha, hb, hc⟩ | hs
        · exact Or.inl ⟨by rw [ha], by rw [hb], by rw [hc]⟩
        · exact Or.inr (by simpa using hs)
      rw [if_pos hP2c, if_pos hP2]
      refine ⟨?_, ?_, ?_⟩ <;>
      · dsimp only [setVrWeight]
        simp [estimateRemaining_pid, estimateRemaining_subqueue_score]
    · have hP2c : ¬ ((some (oracle t0.features).inter = some "Interactive" ∧
          some (oracle t0.features).execution = some "Short" ∧
          some (oracle t0.features).priority = some "High") ∨
          (some (labelScore (oracle t0.features))).getD 0 > 13 / 5) := by
        intro hcc
        apply hP2
        rcases hcc with ⟨ha, hb, hc⟩ | hs
        · exact Or.inl ⟨Option.some.inj ha, Option.some.inj hb, Option.some.inj hc⟩
        · exact Or.inr (by simpa using hs)
      rw [if_neg hP2c, if_neg hP2]
      refine ⟨?_, ?_, ?_⟩ <;>
      · dsimp only [setVrWeight]
        simp [estimateRemaining_pid, estimateRemaining_subqueue_score]

section ClaimC8

/-- C8: for every admitted task whose `Scheduling_Policy` is none of
`SCHED_FIFO`, `SCHED_RR`, `SCHED_IDLE`, the AI variant's admission assigns by
the remaining rules in order, first match winning: Real-time interactivity
gives FIFO; (Interactive ∧ Short ∧ High) or `subqueue_score > 2.6` gives RR;
otherwise CFS. -/
theorem C8_assignment_rules (oracle : Features → Labels) (row : Features) (uid : ℕ) (s : Sim)
    (h1 : pyUpper (row.schedulingPolicy.getD "") ≠ "SCHED_FIFO")
    (h2 : pyUpper (row.schedulingPolicy.getD "") ≠ "SCHED_RR")
    (h3 : pyUpper (row.schedulingPolicy.getD "") ≠ "SCHED_IDLE") :
    ∃ t, lookupTask (admitFn .ai oracle (Task.init row uid) s) row.pid = some t ∧
      t.subqueue_score = some (labelScore (oracle row)) ∧
      t.assigned_scheduler = some (
        if (oracle row).inter = "Real-time" then Sched.FIFO
        else if ((oracle row).inter = "Interactive" ∧ (oracle row).execution = "Short" ∧
            (oracle row).priority = "High") ∨ labelScore (oracle row) > 13 / 5 then Sched.RR
        else Sched.CFS) := by
  have hfeat : (Task.init row uid).features = row := rfl
  obtain ⟨hpid, hscore, hsched⟩ :=
    admitTask_ai_spec oracle s.rrQuantumCfg (Task.init row uid)
      (by rw [hfeat]; exact h1) (by rw [hfeat]; exact h2) (by rw [hfeat]; exact h3)
  refine ⟨admitTask .ai oracle s.rrQuantumCfg (Task.init row uid), ?_, ?_, ?_⟩
  · unfold lookupTask
    rw [admitFn_tasks, hpid]
    rw [show (Task.init row uid).pid = row.pid from rfl]
    exact lookup_updBindings_self row.pid _ _
  · rw [hscore, hfeat]
  · rw [hsched, hfeat]

/-- The classifier outputs of the C8 witness scenario: interactivity
Real-time. -/
def rtOracle : Features → Labels := fun _ => ⟨"Mixed", "Real-time", "Medium", "Medium"⟩

def rowRT : Features :=
  { pid := 3, arrivalSec := some 0, totalTimeTicks := some 5,
    schedulingPolicy := some "SCHED_OTHER" }

theorem C8_assignment_witness :
    ∃ t, lookupTask (admitFn .ai rtOracle (Task.init rowRT 0) (initSim 1 100)) 3 = some t ∧
      t.assigned_scheduler = some Sched.FIFO := by
  obtain ⟨t, hl, _, hs⟩ :=
    C8_assignment_rules rtOracle rowRT 0 (initSim 1 100) (by decide) (by decide) (by decide)
  refine ⟨t, hl, ?_⟩
  rw [hs]
  rfl

end ClaimC8

end ClaimScenarios

/-! ## Reachable-state invariant machinery (claims C4 and C10)

`positions s` lists every pid currently holding a slot: the three deque
classes, the CFS heap entries, and the per-core running slots.  The invariant
`Inv` packages what admission and the tick engine maintain: a pid occupies at
most one slot, every occupied slot refers to a stored task, every CFS heap
entry's snapshot vruntime equals its task's live vruntime exactly, completed
tasks hold no slot, and the work accounting
`remaining + total_run = total_time` (with `remaining ≥ 1` while runnable)
holds for every stored task of positive `total_time`. -/

def runningPids (s : Sim) : List ℕ := s.cores.filterMap Core.runningPid

def positions (s : Sim) : List ℕ :=
  s.fifoQ ++ s.rrQ ++ s.idleQ ++ s.cfsQ.map Entry.pid ++ runningPids s

lemma lookup_some_mem {l : List (ℕ × Task)} {p : ℕ} {t : Task}
    (h : l.lookup p = some t) : (p, t) ∈ l := by
  induction l with
  | nil => cases h
  | cons pr rest ih =>
    obtain ⟨k, v⟩ := pr
    rw [List.lookup_cons] at h
    cases hpk : p == k with
    | true =>
      rw [hpk] at h
      cases h
      have : p = k := eq_of_beq hpk
      subst this
      exact List.mem_cons_self _ _
    | false =>
      rw [hpk] at h
      exact List.mem_cons_of_mem _ (ih h)

lemma runningPid_mem {l : List Core} {cid : ℕ} {p : ℕ} {tl : ℤ}
    (h : l[cid]? = some ⟨some p, tl⟩) : p ∈ l.filterMap Core.runningPid :=
  List.mem_filterMap.mpr ⟨⟨some p, tl⟩, List.getElem?_mem h, rfl⟩

lemma runningPid_set_fill :
    ∀ (l : List Core) (cid : ℕ) (tl0 : ℤ) (p : ℕ) (tl : ℤ),
      l[cid]? = some ⟨none, tl0⟩ →
      ((l.set cid ⟨some p, tl⟩).filterMap Core.runningPid).Perm
        (p :: l.filterMap Core.runningPid) := by
  intro l
  induction l with
  | nil => intro cid tl0 p tl h; cases h
  | cons x xs ih =>
    intro cid tl0 p tl h
    cases cid with
    | zero =>
      simp only [List.getElem?_cons_zero, Option.some.injEq] at h
      subst h
      simp [List.set, List.filterMap_cons]
    | succ n =>
      simp only [List.getElem?_cons_succ] at h
      simp only [List.set]
      rw [List.filterMap_cons, List.filterMap_cons]
      cases hx : x.runningPid with
      | none => exact ih n tl0 p tl h
      | some q =>
        exact ((ih n tl0 p tl h).cons q).trans (List.Perm.swap p q _)

lemma runningPid_set_clear :
    ∀ (l : List Core) (cid : ℕ) (p : ℕ) (tl0 : ℤ),
      l[cid]? = some ⟨some p, tl0⟩ →
      (l.filterMap Core.runningPid).Perm
        (p :: (l.set cid ⟨none, 0⟩).filterMap Core.runningPid) := by
  intro l
  induction l with
  | nil => intro cid p tl0 h; cases h
  | cons x xs ih =>
    intro cid p tl0 h
    cases cid with
    | zero =>
      simp only [List.getElem?_cons_zero, Option.some.injEq] at h
      subst h
      simp [List.set, List.filterMap_cons]
    | succ n =>
      simp only [List.getElem?_cons_succ] at h
      simp only [List.set]
      rw [List.filterMap_cons, List.filterMap_cons]
      cases hx : x.runningPid with
      | none => exact ih n p tl0 h
      | some q =>
        exact ((ih n p tl0 h).cons q).trans (List.Perm.swap p q _)

lemma runningPid_set_keep :
    ∀ (l : List Core) (cid : ℕ) (p : ℕ) (tl0 tl : ℤ),
      l[cid]? = some ⟨some p, tl0⟩ →
      (l.set cid ⟨some p, tl⟩).filterMap Core.runningPid =
        l.filterMap Core.runningPid := by
  intro l
  induction l with
  | nil => intro cid p tl0 tl h; cases h
  | cons x xs ih =>
    intro cid p tl0 tl h
    cases cid with
    | zero =>
      simp only [List.getElem?_cons_zero, Option.some.injEq] at h
      subst h
      simp [List.set, List.filterMap_cons]
    | succ n =>
      simp only [List.getElem?_cons_succ] at h
      simp only [List.set]
      rw [List.filterMap_cons, List.filterMap_cons, ih n p tl0 tl h]

/-- The state invariant maintained by admission and ticks. -/
structure Inv (s : Sim) : Prop where
  nodup : (positions s).Nodup
  store_key : ∀ pr ∈ s.tasks, pr.2.pid = pr.1
  pos_store : ∀ p ∈ positions s, ∃ t, lookupTask s p = some t
  heap_live : ∀ e ∈ s.cfsQ, ∃ t, lookupTask s e.pid = some t ∧ e.vr = t.vruntime
  comp_store : ∀ p ∈ s.completed, ∃ t, lookupTask s p = some t
  comp_not_pos : ∀ p ∈ s.completed, p ∉ positions s
  acct : ∀ p t, lookupTask s p = some t → 1 ≤ t.total_time →
    t.remaining + t.total_run = t.total_time ∧
    (p ∈ positions s → 1 ≤ t.remaining)

lemma Inv.lookup_pid {s : Sim} (hs : Inv s) {p : ℕ} {t : Task}
    (h : lookupTask s p = some t) : t.pid = p :=
  hs.store_key (p, t) (lookup_some_mem h)

lemma Inv_initSim (numCores : ℕ) (rrq : ℤ) : Inv (initSim numCores rrq) := by
  have hrep : ∀ n : ℕ, (List.replicate n (⟨none, 0⟩ : Core)).filterMap Core.runningPid = [] := by
    intro n
    induction n with
    | zero => rfl
    | succ n ih => simp [List.replicate, List.filterMap_cons, ih]
  have hpos : positions (initSim numCores rrq) = [] := by
    simp [positions, initSim, runningPids, hrep]
  refine ⟨?_, ?_, ?_, ?_, ?_, ?_, ?_⟩ <;> simp_all [initSim, lookupTask]

lemma mem_updBindings {p : ℕ} {t : Task} :
    ∀ {l : List (ℕ × Task)} {pr : ℕ × Task}, pr ∈ updBindings p t l →
      pr = (p, t) ∨ pr ∈ l := by
  intro l
  induction l with
  | nil =>
    intro pr h
    simp [updBindings] at h
    exact Or.inl h
  | cons hd rest ih =>
    intro pr h
    obtain ⟨k, v⟩ := hd
    by_cases hk : k = p
    · subst hk
      simp only [updBindings, if_pos rfl] at h
      rcases List.mem_cons.mp h with h | h
      · exact Or.inl h
      · exact Or.inr (List.mem_cons_of_mem _ h)
    · simp only [updBindings, if_neg hk] at h
      rcases List.mem_cons.mp h with h | h
      · exact Or.inr (h ▸ List.mem_cons_self _ _)
      · rcases ih h with h | h
        · exact Or.inl h
        · exact Or.inr (List.mem_cons_of_mem _ h)

lemma contains_eq_false_of_not_mem {l : List ℕ} {p : ℕ} (h : p ∉ l) :
    l.contains p = false := by
  rw [← Bool.not_eq_true, List.contains_iff_exists_mem_beq]
  intro ⟨a, ha, hbeq⟩
  exact h (by rwa [eq_of_beq hbeq])

/-- One pid cannot occur twice among the position slots. -/
lemma Inv.count_le_one {s : Sim} (hs : Inv s) (p : ℕ) : (positions s).count p ≤ 1 :=
  List.nodup_iff_count_le_one.mp hs.nodup p

/-- A pid running on a core has no CFS heap entry (used for C10: vruntime is
mutated only for the running task, which is not in the heap). -/
lemma Inv.heap_not_running {s : Sim} (hs : Inv s) {p : ℕ} (hp : p ∈ runningPids s) :
    ∀ e ∈ s.cfsQ, e.pid ≠ p := by
  intro e he heq
  have h1 : 1 ≤ (s.cfsQ.map Entry.pid).count p := by
    rw [Nat.one_le_iff_ne_zero, Ne, List.count_eq_zero]
    exact fun hmem => hmem (List.mem_map.mpr ⟨e, he, heq⟩)
  have h2 : 1 ≤ (runningPids s).count p := by
    rw [Nat.one_le_iff_ne_zero, Ne, List.count_eq_zero]
    exact fun hmem => hmem hp
  have := hs.count_le_one p
  simp only [positions, List.count_append] at this
  omega

/-- A pid at the head of one of the deque classes has no CFS heap entry. -/
lemma Inv.heap_not_queued {s : Sim} (hs : Inv s) {p : ℕ}
    (hp : p ∈ s.fifoQ ∨ p ∈ s.rrQ ∨ p ∈ s.idleQ) :
    ∀ e ∈ s.cfsQ, e.pid ≠ p := by
  intro e he heq
  have h1 : 1 ≤ (s.cfsQ.map Entry.pid).count p := by
    rw [Nat.one_le_iff_ne_zero, Ne, List.count_eq_zero]
    exact fun hmem => hmem (List.mem_map.mpr ⟨e, he, heq⟩)
  have h2 : 1 ≤ s.fifoQ.count p + s.rrQ.count p + s.idleQ.count p := by
    rcases hp with hp | hp | hp <;>
    · have := List.count_pos_iff.mpr hp
      omega
  have := hs.count_le_one p
  simp only [positions, List.count_append] at this
  omega

/-- Invariant transfer for steps that move one pid between position slots
(dispatch, preemption requeue, and uninterrupted run ticks), updating that
pid's stored task. -/
lemma Inv_transfer_move (s s' : Sim) (hs : Inv s) (p : ℕ) (t2 : Task)
    (hperm : (positions s').Perm (positions s))
    (htasks : s'.tasks = updBindings p t2 s.tasks)
    (ht2pid : t2.pid = p)
    (hp_pos : p ∈ positions s)
    (hheap : ∀ e ∈ s'.cfsQ, (e ∈ s.cfsQ ∧ e.pid ≠ p) ∨ (e.pid = p ∧ e.vr = t2.vruntime))
    (hcomp : s'.completed = s.completed)
    (hacct2 : 1 ≤ t2.total_time → t2.remaining + t2.total_run = t2.total_time ∧
      (p ∈ positions s' → 1 ≤ t2.remaining)) :
    Inv s' := by
  have hlook : ∀ q, lookupTask s' q = if q = p then some t2 else lookupTask s q := by
    intro q
    unfold lookupTask
    rw [htasks]
    by_cases hq : q = p
    · subst hq; rw [if_pos rfl]; exact lookup_updBindings_self q t2 s.tasks
    · rw [if_neg hq]; exact lookup_updBindings_ne p q t2 hq s.tasks
  have hnp : ∀ q ∈ s.completed, q ≠ p := by
    intro q hq hqp
    exact hs.comp_not_pos q hq (hqp ▸ hp_pos)
  refine ⟨hperm.symm.nodup hs.nodup, ?_, ?_, ?_, ?_, ?_, ?_⟩
  · intro pr hpr
    rw [htasks] at hpr
    rcases mem_updBindings hpr with h | h
    · rw [h]; exact ht2pid
    · exact hs.store_key pr h
  · intro q hq
    rw [hlook]
    by_cases hqp : q = p
    · rw [if_pos hqp]; exact ⟨t2, rfl⟩
    · rw [if_neg hqp]; exact hs.pos_store q (hperm.mem_iff.mp hq)
  · intro e he
    rw [hlook]
    rcases hheap e he with ⟨hold, hne⟩ | ⟨hpe, hvr⟩
    · rw [if_neg hne]; exact hs.heap_live e hold
    · rw [hpe, if_pos rfl]; exact ⟨t2, rfl, hvr⟩
  · intro q hq
    rw [hcomp] at hq
    rw [hlook, if_neg (hnp q hq)]
    exact hs.comp_store q hq
  · intro q hq
    rw [hcomp] at hq
    intro hqpos
    exact hs.comp_not_pos q hq (hperm.mem_iff.mp hqpos)
  · intro q t hq htt
    rw [hlook] at hq
    by_cases hqp : q = p
    · rw [if_pos hqp] at hq
      cases hq
      exact (hqp ▸ hacct2 htt : _)
    · rw [if_neg hqp] at hq
      obtain ⟨hsum, hrem⟩ := hs.acct q t hq htt
      exact ⟨hsum, fun hmem => hrem (hperm.mem_iff.mp hmem)⟩

/-- Invariant transfer for steps that drop one pid from the position slots
(completion, and the quantum-expiry path that does not requeue), possibly
adding it to the completed set. -/
lemma Inv_transfer_drop (s s' : Sim) (hs : Inv s) (p : ℕ) (t2 : Task)
    (hperm : (positions s).Perm (p :: positions s'))
    (htasks : s'.tasks = updBindings p t2 s.tasks)
    (ht2pid : t2.pid = p)
    (hheap : ∀ e ∈ s'.cfsQ, e ∈ s.cfsQ ∧ e.pid ≠ p)
    (hcomp : s'.completed = s.completed ∨ s'.completed = s.completed ++ [p])
    (hacct2 : 1 ≤ t2.total_time → t2.remaining + t2.total_run = t2.total_time) :
    Inv s' := by
  have hp_pos : p ∈ positions s := hperm.mem_iff.mpr (List.mem_cons_self _ _)
  have hnodup' : (p :: positions s').Nodup := hperm.nodup hs.nodup
  have hpnot : p ∉ positions s' := (List.nodup_cons.mp hnodup').1
  have hsub : ∀ q ∈ positions s', q ∈ positions s := by
    intro q hq
    exact hperm.mem_iff.mpr (List.mem_cons_of_mem _ hq)
  have hlook : ∀ q, lookupTask s' q = if q = p then some t2 else lookupTask s q := by
    intro q
    unfold lookupTask
    rw [htasks]
    by_cases hq : q = p
    · subst hq; rw [if_pos rfl]; exact lookup_updBindings_self q t2 s.tasks
    · rw [if_neg hq]; exact lookup_updBindings_ne p q t2 hq s.tasks
  have hnp : ∀ q ∈ s.completed, q ≠ p := by
    intro q hq hqp
    exact hs.comp_not_pos q hq (hqp ▸ hp_pos)
  refine ⟨(List.nodup_cons.mp hnodup').2, ?_, ?_, ?_, ?_, ?_, ?_⟩
  · intro pr hpr
    rw [htasks] at hpr
    rcases mem_updBindings hpr with h | h
    · rw [h]; exact ht2pid
    · exact hs.store_key pr h
  · intro q hq
    rw [hlook]
    by_cases hqp : q = p
    · rw [if_pos hqp]; exact ⟨t2, rfl⟩
    · rw [if_neg hqp]; exact hs.pos_store q (hsub q hq)
  · intro e he
    obtain ⟨hold, hne⟩ := hheap e he
    rw [hlook, if_neg hne]
    exact hs.heap_live e hold
  · intro q hq
    rw [hlook]
    by_cases hqp : q = p
    · rw [if_pos hqp]; exact ⟨t2, rfl⟩
    · rw [if_neg hqp]
      rcases hcomp with hc | hc
      · exact hs.comp_store q (hc ▸ hq)
      · rw [hc] at hq
        rcases List.mem_append.mp hq with hq | hq
        · exact hs.comp_store q hq
        · exact absurd (List.mem_singleton.mp hq) hqp
  · intro q hq hqpos
    by_cases hqp : q = p
    · exact hpnot (hqp ▸ hqpos)
    · have hq' : q ∈ s.completed := by
        rcases hcomp with hc | hc
        · exact hc ▸ hq
        · rw [hc] at hq
          rcases List.mem_append.mp hq with hq | hq
          · exact hq
          · exact absurd (List.mem_singleton.mp hq) hqp
      exact hs.comp_not_pos q hq' (hsub q hqpos)
  · intro q t hq htt
    rw [hlook] at hq
    by_cases hqp : q = p
    · rw [if_pos hqp] at hq
      cases hq
      subst hqp
      exact ⟨hacct2 htt, fun hmem => absurd hmem hpnot⟩
    · rw [if_neg hqp] at hq
      obtain ⟨hsum, hrem⟩ := hs.acct q t hq htt
      exact ⟨hsum, fun hmem => hrem (hsub q hmem)⟩

/-! ## Admission preserves the invariant -/

lemma estimateRemaining_total_time (t : Task) :
    (estimateRemaining t).total_time = t.total_time := by
  unfold estimateRemaining; split <;> rfl

lemma estimateRemaining_total_run (t : Task) :
    (estimateRemaining t).total_run = t.total_run := by
  unfold estimateRemaining; split <;> rfl

lemma estimateRemaining_remaining_of {t : Task} (h : t.remaining ≠ 0) :
    (estimateRemaining t).remaining = t.remaining := by
  unfold estimateRemaining
  rw [if_neg h]

lemma assignSchedulerAndSubqueue_proj (t : Task) :
    (assignSchedulerAndSubqueue t).pid = t.pid ∧
    (assignSchedulerAndSubqueue t).total_time = t.total_time ∧
    (assignSchedulerAndSubqueue t).total_run = t.total_run ∧
    (assignSchedulerAndSubqueue t).remaining = t.remaining := by
  unfold assignSchedulerAndSubqueue
  dsimp only []
  split_ifs <;> exact ⟨rfl, rfl, rfl, rfl⟩

lemma assignByPolicy_proj (elseFn : Task → Task)
    (h : ∀ u, (elseFn u).pid = u.pid ∧ (elseFn u).total_time = u.total_time ∧
      (elseFn u).total_run = u.total_run ∧ (elseFn u).remaining = u.remaining)
    (t : Task) :
    (assignByPolicy elseFn t).pid = t.pid ∧
    (assignByPolicy elseFn t).total_time = t.total_time ∧
    (assignByPolicy elseFn t).total_run = t.total_run ∧
    (assignByPolicy elseFn t).remaining = t.remaining := by
  unfold assignByPolicy
  dsimp only []
  split_ifs <;> first
    | exact ⟨rfl, rfl, rfl, rfl⟩
    | exact h t

/-- Admission only decorates the task: identity and work accounting fields
are unchanged (`remaining` provided it was non-zero, i.e. the estimate branch
did not fire). -/
lemma admitTask_proj (mode : Mode) (oracle : Features → Labels) (rrq : ℤ) (t0 : Task) :
    (admitTask mode oracle rrq t0).pid = t0.pid ∧
    (admitTask mode oracle rrq t0).total_time = t0.total_time ∧
    (admitTask mode oracle rrq t0).total_run = t0.total_run ∧
    (t0.remaining ≠ 0 → (admitTask mode oracle rrq t0).remaining = t0.remaining) := by
  cases mode with
  | baseline =>
    unfold admitTask
    dsimp only []
    have hb := assignByPolicy_proj
      (fun t => { t with assigned_scheduler := some .CFS, subqueue := some "cfs_1" })
      (fun u => ⟨rfl, rfl, rfl, rfl⟩) t0
    have hp : (setVrWeight (estimateRemaining (assignByPolicy
        (fun t => { t with assigned_scheduler := some .CFS, subqueue := some "cfs_1" }) t0))).pid
        = t0.pid := by
      show (estimateRemaining _).pid = _
      rw [estimateRemaining_pid]
      exact hb.1
    have htt : (setVrWeight (estimateRemaining (assignByPolicy
        (fun t => { t with assigned_scheduler := some .CFS, subqueue := some "cfs_1" }) t0))).total_time
        = t0.total_time := by
      show (estimateRemaining _).total_time = _
      rw [estimateRemaining_total_time]
      exact hb.2.1
    have htr : (setVrWeight (estimateRemaining (assignByPolicy
        (fun t => { t with assigned_scheduler := some .CFS, subqueue := some "cfs_1" }) t0))).total_run
        = t0.total_run := by
      show (estimateRemaining _).total_run = _
      rw [estimateRemaining_total_run]
      exact hb.2.2.1
    have hre : t0.remaining ≠ 0 → (setVrWeight (estimateRemaining (assignByPolicy
        (fun t => { t with assigned_scheduler := some .CFS, subqueue := some "cfs_1" }) t0))).remaining
        = t0.remaining := by
      intro h
      show (estimateRemaining _).remaining = _
      rw [estimateRemaining_remaining_of (by rw [hb.2.2.2]; exact h)]
      exact hb.2.2.2
    split <;> exact ⟨hp, htt, htr, hre⟩
  | ai =>
    unfold admitTask
    dsimp only [classifyTask]
    have hb := assignByPolicy_proj assignSchedulerAndSubqueue
      (fun u => assignSchedulerAndSubqueue_proj u)
      (estimateRemaining
        { t0 with
          resource_type := some (oracle t0.features).resource,
          interactivity := some (oracle t0.features).inter,
          priority_class := some (oracle t0.features).priority,
          execution_class := some (oracle t0.features).execution,
          subqueue_score := some (computeSubqueueScore
            { t0 with
              resource_type := some (oracle t0.features).resource,
              interactivity := some (oracle t0.features).inter,
              priority_class := some (oracle t0.features).priority,
              execution_class := some (oracle t0.features).execution }) })
    have hp := hb.1.trans (estimateRemaining_pid _)
    have htt := hb.2.1.trans (estimateRemaining_total_time _)
    have htr := hb.2.2.1.trans (estimateRemaining_total_run _)
    have hre : t0.remaining ≠ 0 → (assignByPolicy assignSchedulerAndSubqueue
        (estimateRemaining
          { t0 with
            resource_type := some (oracle t0.features).resource,
            interactivity := some (oracle t0.features).inter,
            priority_class := some (oracle t0.features).priority,
            execution_class := some (oracle t0.features).execution,
            subqueue_score := some (computeSubqueueScore
              { t0 with
                resource_type := some (oracle t0.features).resource,
                interactivity := some (oracle t0.features).inter,
                priority_class := some (oracle t0.features).priority,
                execution_class := some (oracle t0.features).execution }) })).remaining
        = t0.remaining := by
      intro h
      rw [hb.2.2.2]
      exact estimateRemaining_remaining_of h
    split <;> exact ⟨hp, htt, htr, hre⟩

lemma admitTask_pid (mode : Mode) (oracle : Features → Labels) (rrq : ℤ) (t0 : Task) :
    (admitTask mode oracle rrq t0).pid = t0.pid :=
  (admitTask_proj mode oracle rrq t0).1

/-- Invariant transfer for inserting a fresh pid at the back of one queue. -/
lemma Inv_insert_fresh (s s' : Sim) (hs : Inv s) (p : ℕ) (t : Task)
    (hperm : (positions s').Perm (positions s ++ [p]))
    (htasks : s'.tasks = updBindings p t s.tasks)
    (htpid : t.pid = p)
    (hfresh : lookupTask s p = none)
    (hheap : ∀ e ∈ s'.cfsQ, e ∈ s.cfsQ ∨ (e.pid = p ∧ e.vr = t.vruntime))
    (hcomp : s'.completed = s.completed)
    (hacct : 1 ≤ t.total_time → t.remaining + t.total_run = t.total_time ∧ 1 ≤ t.remaining) :
    Inv s' := by
  have hnotpos : p ∉ positions s := by
    intro hmem
    obtain ⟨tq, htq⟩ := hs.pos_store p hmem
    rw [hfresh] at htq
    cases htq
  have hnotcomp : p ∉ s.completed := by
    intro hmem
    obtain ⟨tq, htq⟩ := hs.comp_store p hmem
    rw [hfresh] at htq
    cases htq
  have holdpid : ∀ {e : Entry}, e ∈ s.cfsQ → e.pid ≠ p := by
    intro e he heq
    apply hnotpos
    have hmm : e.pid ∈ s.cfsQ.map Entry.pid := List.mem_map.mpr ⟨e, he, rfl⟩
    rw [heq] at hmm
    simp only [positions, List.mem_append]
    exact Or.inl (Or.inr hmm)
  have hlook : ∀ q, lookupTask s' q = if q = p then some t else lookupTask s q := by
    intro q
    unfold lookupTask
    rw [htasks]
    by_cases hq : q = p
    · subst hq; rw [if_pos rfl]; exact lookup_updBindings_self q t s.tasks
    · rw [if_neg hq]; exact lookup_updBindings_ne p q t hq s.tasks
  have hmem' : ∀ q ∈ positions s', q ∈ positions s ∨ q = p := by
    intro q hq
    have := hperm.mem_iff.mp hq
    rcases List.mem_append.mp this with h | h
    · exact Or.inl h
    · exact Or.inr (List.mem_singleton.mp h)
  refine ⟨?_, ?_, ?_, ?_, ?_, ?_, ?_⟩
  · refine hperm.symm.nodup ?_
    simp [List.nodup_append, hs.nodup, hnotpos]
  · intro pr hpr
    rw [htasks] at hpr
    rcases mem_updBindings hpr with h | h
    · rw [h]; exact htpid
    · exact hs.store_key pr h
  · intro q hq
    rw [hlook]
    by_cases hqp : q = p
    · rw [if_pos hqp]; exact ⟨t, rfl⟩
    · rw [if_neg hqp]
      rcases hmem' q hq with h | h
      · exact hs.pos_store q h
      · exact absurd h hqp
  · intro e he
    rw [hlook]
    rcases hheap e he with hold | ⟨hpe, hvr⟩
    · rw [if_neg (holdpid hold)]
      exact hs.heap_live e hold
    · rw [hpe, if_pos rfl]
      exact ⟨t, rfl, hvr⟩
  · intro q hq
    rw [hcomp] at hq
    rw [hlook, if_neg (show ¬ q = p from fun hqp => hnotcomp (hqp ▸ hq))]
    exact hs.comp_store q hq
  · intro q hq hqpos
    rw [hcomp] at hq
    rcases hmem' q hqpos with h | h
    · exact hs.comp_not_pos q hq h
    · exact hnotcomp (h ▸ hq)
  · intro q tq hq htt
    rw [hlook] at hq
    by_cases hqp : q = p
    · rw [if_pos hqp] at hq
      cases hq
      obtain ⟨h1, h2⟩ := hacct htt
      exact ⟨h1, fun _ => h2⟩
    · rw [if_neg hqp] at hq
      obtain ⟨hsum, hrem⟩ := hs.acct q tq hq htt
      refine ⟨hsum, fun hmem => ?_⟩
      rcases hmem' q hmem with h | h
      · exact hrem h
      · exact absurd h hqp

/-- `admit` of a fresh pid preserves the invariant (both variants). -/
lemma Inv_admitFn (mode : Mode) (oracle : Features → Labels) (row : Features) (uid : ℕ)
    (s : Sim) (hs : Inv s) (hfresh : lookupTask s row.pid = none) :
    Inv (admitFn mode oracle (Task.init row uid) s) := by
  obtain ⟨htpid, htt, htr, hrem⟩ := admitTask_proj mode oracle s.rrQuantumCfg (Task.init row uid)
  have hinitpid : (Task.init row uid).pid = row.pid := rfl
  have hinitrem : (Task.init row uid).remaining = (Task.init row uid).total_time := rfl
  have hinittr : (Task.init row uid).total_run = 0 := rfl
  unfold admitFn
  generalize hT : admitTask mode oracle s.rrQuantumCfg (Task.init row uid) = t
    at htpid htt htr hrem ⊢
  rw [hinitpid] at htpid
  have hacct : 1 ≤ t.total_time → t.remaining + t.total_run = t.total_time ∧ 1 ≤ t.remaining := by
    intro h1
    have hne : (Task.init row uid).remaining ≠ 0 := by
      rw [hinitrem]
      omega
    have h2 := hrem hne
    rw [hinitrem] at h2
    rw [hinittr] at htr
    omega
  unfold enqueueTask addLog setTask
  dsimp only []
  rw [htpid]
  cases hcls : t.assigned_scheduler.getD .CFS <;> simp only [hcls]
  case FIFO =>
    refine Inv_insert_fresh s _ hs row.pid t ?_ rfl htpid hfresh ?_ rfl hacct
    · apply List.perm_iff_count.mpr
      intro x
      simp only [positions, runningPids, List.count_append]
      omega
    · intro e he
      exact Or.inl he
  case RR =>
    refine Inv_insert_fresh s _ hs row.pid t ?_ rfl htpid hfresh ?_ rfl hacct
    · apply List.perm_iff_count.mpr
      intro x
      simp only [positions, runningPids, List.count_append]
      omega
    · intro e he
      exact Or.inl he
  case IDLE =>
    refine Inv_insert_fresh s _ hs row.pid t ?_ rfl htpid hfresh ?_ rfl hacct
    · apply List.perm_iff_count.mpr
      intro x
      simp only [positions, runningPids, List.count_append]
      omega
    · intro e he
      exact Or.inl he
  case CFS =>
    refine Inv_insert_fresh s _ hs row.pid t ?_ rfl htpid hfresh ?_ rfl hacct
    · apply List.perm_iff_count.mpr
      intro x
      simp only [positions, runningPids, List.map_append, List.map_cons, List.map_nil,
        List.count_append]
      omega
    · intro e he
      rcases List.mem_append.mp he with h | h
      · exact Or.inl h
      · right
        rw [List.mem_singleton.mp h]
        exact ⟨rfl, rfl⟩

/-! ## Dispatch preserves the invariant -/

lemma Inv.cfs_pids_nodup {s : Sim} (hs : Inv s) : (s.cfsQ.map Entry.pid).Nodup := by
  have h := hs.nodup
  simp only [positions, List.nodup_append] at h
  exact h.1.2.1

lemma Inv.heap_all_valid {s : Sim} (hs : Inv s) :
    ∀ e ∈ s.cfsQ, |liveVr s e.pid - e.vr| < tol := by
  intro e he
  obtain ⟨t, hlt, hvr⟩ := hs.heap_live e he
  have : liveVr s e.pid = t.vruntime := by
    unfold lookupTask at hlt
    unfold liveVr
    rw [hlt]
    rfl
  rw [this, hvr]
  simp [tol]

/-- Dispatching onto an idle core preserves the invariant. -/
lemma Inv_dispatchFn (mode : Mode) (cid : ℕ) (sched : Sched) (s : Sim) (hs : Inv s)
    (tl0 : ℤ) (hcore : s.cores[cid]? = some ⟨none, tl0⟩) :
    Inv (dispatchFn mode cid sched s) := by
  cases sched
  case FIFO =>
    unfold dispatchFn
    cases hq : s.fifoQ with
    | nil => exact hs
    | cons p restQ =>
      have hmem : p ∈ positions s := by
        simp only [positions, List.mem_append, hq]
        exact Or.inl (Or.inl (Or.inl (Or.inl (List.mem_cons_self _ _))))
      obtain ⟨t, hlt⟩ := hs.pos_store p hmem
      have htpid : t.pid = p := hs.lookup_pid hlt
      have hlt1 : lookupTask { s with fifoQ := restQ } p = some t := hlt
      dsimp only []
      rw [hlt1]
      unfold dispatchCommon setTask addLog
      dsimp only []
      rw [htpid]
      obtain ⟨hsum⟩ : True := trivial
      refine Inv_transfer_move s _ hs p _ ?_ rfl rfl hmem ?_ rfl ?_
      · apply List.perm_iff_count.mpr
        intro x
        have hrun : ∀ tl : ℤ,
            ((s.cores.set cid ⟨some p, tl⟩).filterMap Core.runningPid).count x =
              (p :: s.cores.filterMap Core.runningPid).count x :=
          fun tl => (runningPid_set_fill s.cores cid tl0 p tl hcore).count_eq x
        simp only [positions, runningPids, List.count_append, hq]
        rw [hrun]
        simp only [List.count_cons]
        omega
      · intro e he
        exact Or.inl ⟨he, hs.heap_not_queued (Or.inl (hq ▸ List.mem_cons_self _ _)) e he⟩
      · intro h1
        obtain ⟨ha, hb⟩ := hs.acct p t hlt h1
        exact ⟨ha, fun _ => hb hmem⟩
  case RR =>
    unfold dispatchFn
    cases hq : s.rrQ with
    | nil => exact hs
    | cons p restQ =>
      have hmem : p ∈ positions s := by
        simp only [positions, List.mem_append, hq]
        exact Or.inl (Or.inl (Or.inl (Or.inr (List.mem_cons_self _ _))))
      obtain ⟨t, hlt⟩ := hs.pos_store p hmem
      have htpid : t.pid = p := hs.lookup_pid hlt
      have hlt1 : lookupTask { s with rrQ := restQ } p = some t := hlt
      dsimp only []
      rw [hlt1]
      unfold dispatchCommon setTask addLog
      dsimp only []
      rw [htpid]
      refine Inv_transfer_move s _ hs p _ ?_ rfl rfl hmem ?_ rfl ?_
      · apply List.perm_iff_count.mpr
        intro x
        have hrun : ∀ tl : ℤ,
            ((s.cores.set cid ⟨some p, tl⟩).filterMap Core.runningPid).count x =
              (p :: s.cores.filterMap Core.runningPid).count x :=
          fun tl => (runningPid_set_fill s.cores cid tl0 p tl hcore).count_eq x
        simp only [positions, runningPids, List.count_append, hq]
        rw [hrun]
        simp only [List.count_cons]
        omega
      · intro e he
        exact Or.inl ⟨he, hs.heap_not_queued (Or.inr (Or.inl (hq ▸ List.mem_cons_self _ _))) e he⟩
      · intro h1
        obtain ⟨ha, hb⟩ := hs.acct p t hlt h1
        exact ⟨ha, fun _ => hb hmem⟩
  case IDLE =>
    unfold dispatchFn
    cases hq : s.idleQ with
    | nil => exact hs
    | cons p restQ =>
      have hmem : p ∈ positions s := by
        simp only [positions, List.mem_append, hq]
        exact Or.inl (Or.inl (Or.inr (List.mem_cons_self _ _)))
      obtain ⟨t, hlt⟩ := hs.pos_store p hmem
      have htpid : t.pid = p := hs.lookup_pid hlt
      have hlt1 : lookupTask { s with idleQ := restQ } p = some t := hlt
      dsimp only []
      rw [hlt1]
      unfold dispatchCommon setTask addLog
      dsimp only []
      rw [htpid]
      refine Inv_transfer_move s _ hs p _ ?_ rfl rfl hmem ?_ rfl ?_
      · apply List.perm_iff_count.mpr
        intro x
        have hrun : ∀ tl : ℤ,
            ((s.cores.set cid ⟨some p, tl⟩).filterMap Core.runningPid).count x =
              (p :: s.cores.filterMap Core.runningPid).count x :=
          fun tl => (runningPid_set_fill s.cores cid tl0 p tl hcore).count_eq x
        simp only [positions, runningPids, List.count_append, hq]
        rw [hrun]
        simp only [List.count_cons]
        omega
      · intro e he
        exact Or.inl ⟨he, hs.heap_not_queued (Or.inr (Or.inr (hq ▸ List.mem_cons_self _ _))) e he⟩
      · intro h1
        obtain ⟨ha, hb⟩ := hs.acct p t hlt h1
        exact ⟨ha, fun _ => hb hmem⟩
  case CFS =>
    unfold dispatchFn
    by_cases hemp : s.cfsQ = []
    · have hpop : cfsPop (liveVr s) s.cfsQ s.counter = some (none, s.cfsQ, s.counter) := by
        rw [hemp]
        rfl
      rw [hpop]
      exact hs
    · obtain ⟨m, hminE, hpop⟩ :=
        cfsPop_of_all_valid (liveVr s) s.cfsQ s.counter (hs.heap_all_valid) hemp
      rw [hpop]
      have hmemE : m ∈ s.cfsQ := minE_mem hminE
      have hmem : m.pid ∈ positions s := by
        simp only [positions, List.mem_append]
        exact Or.inl (Or.inr (List.mem_map.mpr ⟨m, hmemE, rfl⟩))
      obtain ⟨t, hlt⟩ := hs.pos_store m.pid hmem
      have htpid : t.pid = m.pid := hs.lookup_pid hlt
      have hlt1 : lookupTask { s with cfsQ := s.cfsQ.erase m, counter := s.counter } m.pid =
          some t := hlt
      dsimp only []
      rw [hlt1]
      unfold dispatchCommon setTask addLog
      dsimp only []
      rw [htpid]
      have hpermE : s.cfsQ.Perm (m :: s.cfsQ.erase m) := List.perm_cons_erase hmemE
      refine Inv_transfer_move s _ hs m.pid _ ?_ rfl rfl hmem ?_ rfl ?_
      · apply List.perm_iff_count.mpr
        intro x
        have hrun : ∀ tl : ℤ,
            ((s.cores.set cid ⟨some m.pid, tl⟩).filterMap Core.runningPid).count x =
              (m.pid :: s.cores.filterMap Core.runningPid).count x :=
          fun tl => (runningPid_set_fill s.cores cid tl0 m.pid tl hcore).count_eq x
        have hcfs := ((hpermE.map Entry.pid).count_eq x)
        simp only [List.count_cons, List.map_cons] at hcfs
        simp only [positions, runningPids, List.count_append]
        rw [hrun]
        simp only [List.count_cons]
        omega
      · intro e he
        have heo : e ∈ s.cfsQ := List.mem_of_mem_erase he
        refine Or.inl ⟨heo, ?_⟩
        intro heq
        have hnd : ((m :: s.cfsQ.erase m).map Entry.pid).Nodup :=
          ((hpermE.map Entry.pid).nodup_iff).mp hs.cfs_pids_nodup
        simp only [List.map_cons, List.nodup_cons] at hnd
        exact hnd.1 (List.mem_map.mpr ⟨e, he, heq⟩)
      · intro h1
        obtain ⟨ha, hb⟩ := hs.acct m.pid t hlt h1
        exact ⟨ha, fun _ => hb hmem⟩

/-! ## Running one tick preserves the invariant -/

lemma updateVruntime_proj (mode : Mode) (u : Task) :
    (updateVruntime mode u).pid = u.pid ∧
    (updateVruntime mode u).remaining = u.remaining ∧
    (updateVruntime mode u).total_run = u.total_run ∧
    (updateVruntime mode u).total_time = u.total_time ∧
    (updateVruntime mode u).assigned_scheduler = u.assigned_scheduler := by
  cases mode <;>
  · unfold updateVruntime
    dsimp only []
    split_ifs <;> exact ⟨rfl, rfl, rfl, rfl, rfl⟩

lemma maybeUpd_proj (mode : Mode) (u : Task) :
    (if u.assigned_scheduler = some .CFS then updateVruntime mode u else u).pid = u.pid ∧
    (if u.assigned_scheduler = some .CFS then updateVruntime mode u else u).remaining =
      u.remaining ∧
    (if u.assigned_scheduler = some .CFS then updateVruntime mode u else u).total_run =
      u.total_run ∧
    (if u.assigned_scheduler = some .CFS then updateVruntime mode u else u).total_time =
      u.total_time ∧
    (if u.assigned_scheduler = some .CFS then updateVruntime mode u else u).assigned_scheduler =
      u.assigned_scheduler := by
  split
  · exact updateVruntime_proj mode u
  · exact ⟨rfl, rfl, rfl, rfl, rfl⟩

lemma Inv_runOneTickFn (mode : Mode) (cid : ℕ) (s : Sim) (hs : Inv s) :
    Inv (runOneTickFn mode cid s) := by
  unfold runOneTickFn
  split
  · exact hs
  rename_i core hcc
  split
  · exact hs
  rename_i p hrp
  split
  · exact hs
  rename_i t hlt
  obtain ⟨rp, tl⟩ := core
  dsimp only [] at hrp
  subst hrp
  dsimp only []
  have hmem : p ∈ positions s := by
    simp only [positions, List.mem_append]
    exact Or.inr (runningPid_mem hcc)
  have hpc : p ∉ s.completed := fun hmm => hs.comp_not_pos p hmm hmem
  have htpid : t.pid = p := hs.lookup_pid hlt
  have hheapne : ∀ e ∈ s.cfsQ, e.pid ≠ p := hs.heap_not_running (runningPid_mem hcc)
  have hruncl : ∀ x : ℕ,
      (s.cores.filterMap Core.runningPid).count x =
        (p :: (s.cores.set cid ⟨none, 0⟩).filterMap Core.runningPid).count x :=
    fun x => (runningPid_set_clear s.cores cid p tl hcc).count_eq x
  have hsum2 : (1 : ℤ) ≤ t.total_time →
      max 0 (t.remaining - 1) + (t.total_run + 1) = t.total_time := by
    intro h1
    obtain ⟨hsum, hrm⟩ := hs.acct p t hlt h1
    have hr1 := hrm hmem
    rw [max_eq_right (by omega : (0 : ℤ) ≤ t.remaining - 1)]
    omega
  have hproj := maybeUpd_proj mode
    { t with remaining := max 0 (t.remaining - 1), total_run := t.total_run + 1 }
  dsimp only [] at hproj
  generalize hT2 : (if t.assigned_scheduler = some Sched.CFS then
    updateVruntime mode
      { t with remaining := max 0 (t.remaining - 1), total_run := t.total_run + 1 }
    else { t with remaining := max 0 (t.remaining - 1), total_run := t.total_run + 1 }) = T2
  rw [hT2] at hproj
  obtain ⟨hT2pid, hT2rem, hT2run, hT2tt, hT2sch⟩ := hproj
  split
  · -- completion branch
    refine Inv_transfer_drop s _ hs p _ ?_ rfl ?_ ?_ ?_ ?_
    · apply List.perm_iff_count.mpr
      intro x
      have := hruncl x
      simp only [positions, runningPids, List.count_append, List.count_cons] at this ⊢
      omega
    · exact hT2pid.trans htpid
    · exact fun e he => ⟨he, hheapne e he⟩
    · exact Or.inr (by rw [contains_eq_false_of_not_mem hpc]; rfl)
    · intro h1
      have h1x : (1 : ℤ) ≤ T2.total_time := h1
      have h1t : (1 : ℤ) ≤ t.total_time := hT2tt ▸ h1x
      show T2.remaining + T2.total_run = T2.total_time
      rw [hT2rem, hT2run, hT2tt]
      exact hsum2 h1t
  rename_i hnc
  have hnc' : ¬ max 0 (t.remaining - 1) ≤ 0 := by
    rw [hT2rem] at hnc
    exact hnc
  split
  · -- quantum expired: branch on class
    split
    · -- RR requeue
      refine Inv_transfer_move s _ hs p _ ?_ rfl ?_ hmem ?_ rfl ?_
      · apply List.perm_iff_count.mpr
        intro x
        have := hruncl x
        simp only [positions, runningPids, List.count_append, List.count_cons,
          List.count_nil] at this ⊢
        omega
      · exact hT2pid.trans htpid
      · exact fun e he => Or.inl ⟨he, hheapne e he⟩
      · intro h1
        have h1t : (1 : ℤ) ≤ t.total_time := hT2tt ▸ h1
        refine ⟨?_, ?_⟩
        · rw [hT2rem, hT2run, hT2tt]
          exact hsum2 h1t
        · intro _
          rw [hT2rem]
          omega
    · -- CFS reinsert
      refine Inv_transfer_move s _ hs p _ ?_ rfl ?_ hmem ?_ rfl ?_
      · apply List.perm_iff_count.mpr
        intro x
        have := hruncl x
        simp only [positions, runningPids, List.map_append, List.map_cons,
          List.map_nil, List.count_append, List.count_cons, List.count_nil] at this ⊢
        omega
      · exact hT2pid.trans htpid
      · intro e he
        rcases List.mem_append.mp he with h | h
        · exact Or.inl ⟨h, hheapne e h⟩
        · right
          rw [List.mem_singleton.mp h]
          exact ⟨rfl, rfl⟩
      · intro h1
        have h1t : (1 : ℤ) ≤ t.total_time := hT2tt ▸ h1
        refine ⟨?_, ?_⟩
        · rw [hT2rem, hT2run, hT2tt]
          exact hsum2 h1t
        · intro _
          rw [hT2rem]
          omega
    · -- FIFO requeue at front
      refine Inv_transfer_move s _ hs p _ ?_ rfl ?_ hmem ?_ rfl ?_
      · apply List.perm_iff_count.mpr
        intro x
        have := hruncl x
        simp only [positions, runningPids, List.count_append, List.count_cons,
          List.count_nil] at this ⊢
        omega
      · exact hT2pid.trans htpid
      · exact fun e he => Or.inl ⟨he, hheapne e he⟩
      · intro h1
        have h1t : (1 : ℤ) ≤ t.total_time := hT2tt ▸ h1
        refine ⟨?_, ?_⟩
        · rw [hT2rem, hT2run, hT2tt]
          exact hsum2 h1t
        · intro _
          rw [hT2rem]
          omega
    · -- IDLE or unassigned: dropped
      refine Inv_transfer_drop s _ hs p _ ?_ rfl ?_ ?_ (Or.inl rfl) ?_
      · apply List.perm_iff_count.mpr
        intro x
        have := hruncl x
        simp only [positions, runningPids, List.count_append, List.count_cons,
          List.count_nil] at this ⊢
        omega
      · exact hT2pid.trans htpid
      · exact fun e he => ⟨he, hheapne e he⟩
      · intro h1
        have h1x : (1 : ℤ) ≤ T2.total_time := h1
        have h1t : (1 : ℤ) ≤ t.total_time := hT2tt ▸ h1x
        rw [hT2rem, hT2run, hT2tt]
        exact hsum2 h1t
  · -- keeps running
    refine Inv_transfer_move s _ hs p _ ?_ rfl ?_ hmem ?_ rfl ?_
    · apply List.perm_iff_count.mpr
      intro x
      have hkeep := congrArg (fun l => l.count x)
        (runningPid_set_keep s.cores cid p tl (max 0 (tl - 1)) hcc)
      simp only [] at hkeep
      simp only [positions, runningPids, List.count_append]
      omega
    · exact hT2pid.trans htpid
    · exact fun e he => Or.inl ⟨he, hheapne e he⟩
    · intro h1
      have h1t : (1 : ℤ) ≤ t.total_time := hT2tt ▸ h1
      refine ⟨?_, ?_⟩
      · rw [hT2rem, hT2run, hT2tt]
        exact hsum2 h1t
      · intro _
        rw [hT2rem]
        omega

lemma Inv_coreStep (mode : Mode) (cid : ℕ) (s : Sim) (hs : Inv s) :
    Inv (coreStep mode cid s) := by
  unfold coreStep
  dsimp only []
  apply Inv_runOneTickFn
  split
  · rename_i core hcc
    split
    · rename_i hrp
      split
      · rename_i sched hpick
        obtain ⟨rp, tl⟩ := core
        dsimp only [] at hrp
        subst hrp
        exact Inv_dispatchFn mode cid sched s hs tl hcc
      · exact hs
    · exact hs
  · exact hs

lemma Inv_set_time (s : Sim) (t : ℤ) (hs : Inv s) : Inv { s with time := t } := by
  refine ⟨hs.nodup, hs.store_key, hs.pos_store, hs.heap_live, hs.comp_store,
    hs.comp_not_pos, hs.acct⟩

lemma Inv_foldl_coreStep (mode : Mode) (l : List ℕ) (s : Sim) (hs : Inv s) :
    Inv (l.foldl (fun acc cid => coreStep mode cid acc) s) := by
  induction l generalizing s with
  | nil => exact hs
  | cons c rest ih =>
    exact ih (coreStep mode c s) (Inv_coreStep mode c s hs)

lemma Inv_tickFn (mode : Mode) (t : ℤ) (s : Sim) (hs : Inv s) : Inv (tickFn mode t s) := by
  unfold tickFn
  exact Inv_foldl_coreStep mode _ _ (Inv_set_time s t hs)

/-! ## Reachable scheduler states

A state is reachable when it arises from a fresh scheduler by admitting tasks
(with pids not already in the store, as the Python `task_map` assumes) and by
running clock ticks.  These are exactly the operations the driver loop uses. -/

inductive Reach (mode : Mode) (oracle : Features → Labels) : Sim → Prop
  | init (numCores : ℕ) (rrq : ℤ) : Reach mode oracle (initSim numCores rrq)
  | enter {s : Sim} (row : Features) (uid : ℕ)
      (hfresh : lookupTask s row.pid = none) (hs : Reach mode oracle s) :
      Reach mode oracle (admitFn mode oracle (Task.init row uid) s)
  | tick {s : Sim} (t : ℤ) (hs : Reach mode oracle s) :
      Reach mode oracle (tickFn mode t s)

lemma Reach_Inv {mode : Mode} {oracle : Features → Labels} {s : Sim}
    (h : Reach mode oracle s) : Inv s := by
  induction h with
  | init n rrq => exact Inv_initSim n rrq
  | enter row uid hfresh _ ih => exact Inv_admitFn _ _ row uid _ ih hfresh
  | tick t _ ih => exact Inv_tickFn _ t _ ih

section ClaimReach

attribute [local semireducible] Rat.mul Rat.add Rat.inv Rat.sub Rat.ofScientific

/-- C4: the spec's accounting invariant `remaining + total_run = total_time`,
amended to tasks with `total_time ≥ 1`: admission bumps `remaining` to a
positive estimate when it is `0`, so rows with no work recorded violate the
equation (see the counterexample); for every other task the equation holds in
every reachable state, in both scheduler variants. -/
theorem C4_invariant_amended (mode : Mode) (oracle : Features → Labels) (s : Sim)
    (hreach : Reach mode oracle s) (p : ℕ) (t : Task)
    (hlt : lookupTask s p = some t) (htt : (1 : ℤ) ≤ t.total_time) :
    t.remaining + t.total_run = t.total_time :=
  ((Reach_Inv hreach).acct p t hlt htt).1

def rowC4w : Features := { pid := 1, totalTimeTicks := some 5 }

def simC4w : Sim :=
  tickFn Mode.baseline 0
    (admitFn Mode.baseline defaultsOracle (Task.init rowC4w 0) (initSim 1 100))

lemma reachC4w : Reach Mode.baseline defaultsOracle simC4w :=
  Reach.tick 0 (Reach.enter rowC4w 0 rfl (Reach.init 1 100))

def tC4w : Task := (lookupTask simC4w 1).getD (Task.init rowC4w 0)

/-- C4 witness: a task with 5 ticks of work, admitted and run for one tick on a
fresh one-core baseline scheduler, satisfies the accounting equation. -/
theorem C4_invariant_witness :
    (1 : ℤ) ≤ tC4w.total_time ∧ tC4w.remaining + tC4w.total_run = tC4w.total_time :=
  ⟨by decide,
   C4_invariant_amended Mode.baseline defaultsOracle simC4w reachC4w 1 tC4w
     (by decide) (by decide)⟩

/-- C10: in every state reachable by admit and tick operations, each task in
the CFS subqueue has exactly one heap entry (the entry pids are nodup), each
entry's snapshot vruntime equals the task's live vruntime exactly (hence
within the 1e-6 tolerance), and consequently `_cfs_pop_min` returns the
minimum entry immediately: the heap shrinks by that entry and the entry
counter is unchanged, i.e. the stale-reinsertion branch is never executed. -/
theorem C10_no_stale_reinsertion (mode : Mode) (oracle : Features → Labels) (s : Sim)
    (hreach : Reach mode oracle s) :
    (s.cfsQ.map Entry.pid).Nodup ∧
    (∀ e ∈ s.cfsQ, ∃ t, lookupTask s e.pid = some t ∧ e.vr = t.vruntime) ∧
    (s.cfsQ ≠ [] → ∀ c : ℕ, ∃ e, minE s.cfsQ = some e ∧
      cfsPop (liveVr s) s.cfsQ c = some (some e, s.cfsQ.erase e, c)) := by
  have hs := Reach_Inv hreach
  exact ⟨hs.cfs_pids_nodup, hs.heap_live,
    fun hne c => cfsPop_of_all_valid (liveVr s) s.cfsQ c hs.heap_all_valid hne⟩

def rowC10a : Features := { pid := 1, totalTimeTicks := some 5 }

def rowC10b : Features := { pid := 2, totalTimeTicks := some 7, seVruntime := some 3 }

def simC10w : Sim :=
  admitFn Mode.baseline defaultsOracle (Task.init rowC10b 1)
    (admitFn Mode.baseline defaultsOracle (Task.init rowC10a 0) (initSim 1 100))

lemma reachC10w : Reach Mode.baseline defaultsOracle simC10w :=
  Reach.enter rowC10b 1 rfl (Reach.enter rowC10a 0 rfl (Reach.init 1 100))

/-- C10 witness: two CFS tasks admitted to a fresh baseline scheduler; the pop
at any counter value (here 5) returns the minimum entry at once, with the
counter unchanged. -/
theorem C10_no_stale_reinsertion_witness :
    simC10w.cfsQ ≠ [] ∧
    (∃ e, minE simC10w.cfsQ = some e ∧
      cfsPop (liveVr simC10w) simC10w.cfsQ 5 = some (some e, simC10w.cfsQ.erase e, 5)) :=
  ⟨by decide,
   (C10_no_stale_reinsertion Mode.baseline defaultsOracle simC10w reachC10w).2.2
     (by decide) 5⟩

end ClaimReach

/-! ## Scenario 2 of the spec (claim C3): two round-robin tasks

Five hundred ticks overflow a single kernel evaluation, so the run is split
into two halves of 250 ticks around an explicitly given midpoint state. -/

lemma runTicks_add (mode : Mode) (oracle : Features → Labels) (uids : ℕ → ℕ)
    (rows : List Features) (m : ℕ) :
    ∀ (n : ℕ) (t : ℤ) (s : Sim),
    runTicks mode oracle uids rows t (m + n) s =
      runTicks mode oracle uids rows (t + m) n (runTicks mode oracle uids rows t m s) := by
  induction m with
  | zero =>
    intro n t s
    norm_num [runTicks]
  | succ m ih =>
    intro n t s
    have h : m + 1 + n = (m + n) + 1 := by omega
    rw [h]
    show runTicks mode oracle uids rows (t + 1) (m + n) (simStep mode oracle uids rows t s) = _
    rw [ih n (t + 1) (simStep mode oracle uids rows t s)]
    have h2 : (t + 1) + (m : ℤ) = t + ((m : ℕ) + 1 : ℕ) := by push_cast; ring
    rw [h2]
    rfl

section ClaimC3

attribute [local semireducible] Rat.mul Rat.add Rat.inv Rat.sub Rat.ofScientific

def rowsC3 : List Features :=
  [{ pid := 1, arrivalSec := some 0, totalTimeTicks := some 250,
     schedulingPolicy := some "SCHED_RR" },
   { pid := 2, arrivalSec := some 0, totalTimeTicks := some 250,
     schedulingPolicy := some "SCHED_RR" }]

/-- The claim's scenario: one core, `rr_quantum = 100`, two baseline RR tasks
of 250 ticks each arriving at `t = 0`, run for 500 ticks. -/
def simC3 : Sim := runSim Mode.baseline defaultsOracle uids0 rowsC3 1 100 500

set_option maxHeartbeats 2000000 in
/-- The scenario state after the first 250 ticks (pid 1 running since its
third dispatch at `t = 200`, pid 2 queued). -/
def LmidC3 : Sim :=
Sim.mk (100 : ℤ) 0
  []
  [2]
  []
  []
  [(Core.mk (some 1) (50 : ℤ))]
  (249 : ℤ)
  [(LogRow.mk (249 : ℤ) "RUN" (some 0) (some 1) (some "T1") (some Sched.RR) (some "rr_1") (some (100 : ℤ)) (some (100 : ℤ)) (some (0 : ℚ)) none none),
  (LogRow.mk (248 : ℤ) "RUN" (some 0) (some 1) (some "T1") (some Sched.RR) (some "rr_1") (some (101 : ℤ)) (some (100 : ℤ)) (some (0 : ℚ)) none none),
  (LogRow.mk (247 : ℤ) "RUN" (some 0) (some 1) (some "T1") (some Sched.RR) (some "rr_1") (some (102 : ℤ)) (some (100 : ℤ)) (some (0 : ℚ)) none none),
  (LogRow.mk (246 : ℤ) "RUN" (some 0) (some 1) (some "T1") (some Sched.RR) (some "rr_1") (some (103 : ℤ)) (some (100 : ℤ)) (some (0 : ℚ)) none none),
  (LogRow.mk (245 : ℤ) "RUN" (some 0) (some 1) (some "T1") (some Sched.RR) (some "rr_1") (some (104 : ℤ)) (some (100 : ℤ)) (some (0 : ℚ)) none none),
  (LogRow.mk (244 : ℤ) "RUN" (some 0) (some 1) (some "T1") (some Sched.RR) (some "rr_1") (some (105 : ℤ)) (some (100 : ℤ)) (some (0 : ℚ)) none none),
  (LogRow.mk (243 : ℤ) "RUN" (some 0) (some 1) (some "T1") (some Sched.RR) (some "rr_1") (some (106 : ℤ)) (some (100 : ℤ)) (some (0 : ℚ)) none none),
  (LogRow.mk (242 : ℤ) "RUN" (some 0) (some 1) (some "T1") (some Sched.RR) (some "rr_1") (some (107 : ℤ)) (some (100 : ℤ)) (some (0 : ℚ)) none none),
  (LogRow.mk (241 : ℤ) "RUN" (some 0) (some 1) (some "T1") (some Sched.RR) (some "rr_1") (some (108 : ℤ)) (some (100 : ℤ)) (some (0 : ℚ)) none none),
  (LogRow.mk (240 : ℤ) "RUN" (some 0) (some 1) (some "T1") (some Sched.RR) (some "rr_1") (some (109 : ℤ)) (some (100 : ℤ)) (some (0 : ℚ)) none none),
  (LogRow.mk (239 : ℤ) "RUN" (some 0) (some 1) (some "T1") (some Sched.RR) (some "rr_1") (some (110 : ℤ)) (some (100 : ℤ)) (some (0 : ℚ)) none none),
  (LogRow.mk (238 : ℤ) "RUN" (some 0) (some 1) (some "T1") (some Sched.RR) (some "rr_1") (some (111 : ℤ)) (some (100 : ℤ)) (some (0 : ℚ)) none none),
  (LogRow.mk (237 : ℤ) "RUN" (some 0) (some 1) (some "T1") (some Sched.RR) (some "rr_1") (some (112 : ℤ)) (some (100 : ℤ)) (some (0 : ℚ)) none none),
  (LogRow.mk (236 : ℤ) "RUN" (some 0) (some 1) (some "T1") (some Sched.RR) (some "rr_1") (some (113 : ℤ)) (some (100 : ℤ)) (some (0 : ℚ)) none none),
  (LogRow.mk (235 : ℤ) "RUN" (some 0) (some 1) (some "T1") (some Sched.RR) (some "rr_1") (some (114 : ℤ)) (some (100 : ℤ)) (some (0 : ℚ)) none none),
  (LogRow.mk (234 : ℤ) "RUN" (some 0) (some 1) (some "T1") (some Sched.RR) (some "rr_1") (some (115 : ℤ)) (some (100 : ℤ)) (some (0 : ℚ)) none none),
  (LogRow.mk (233 : ℤ) "RUN" (some 0) (some 1) (some "T1") (some Sched.RR) (some "rr_1") (some (116 : ℤ)) (some (100 : ℤ)) (some (0 : ℚ)) none none),
  (LogRow.mk (232 : ℤ) "RUN" (some 0) (some 1) (some "T1") (some Sched.RR) (some "rr_1") (some (117 : ℤ)) (some (100 : ℤ)) (some (0 : ℚ)) none none),
  (LogRow.mk (231 : ℤ) "RUN" (some 0) (some 1) (some "T1") (some Sched.RR) (some "rr_1") (some (118 : ℤ)) (some (100 : ℤ)) (some (0 : ℚ)) none none),
  (LogRow.mk (230 : ℤ) "RUN" (some 0) (some 1) (some "T1") (some Sched.RR) (some "rr_1") (some (119 : ℤ)) (some (100 : ℤ)) (some (0 : ℚ)) none none),
  (LogRow.mk (229 : ℤ) "RUN" (some 0) (some 1) (some "T1") (some Sched.RR) (some "rr_1") (some (120 : ℤ)) (some (100 : ℤ)) (some (0 : ℚ)) none none),
  (LogRow.mk (228 : ℤ) "RUN" (some 0) (some 1) (some "T1") (some Sched.RR) (some "rr_1") (some (121 : ℤ)) (some (100 : ℤ)) (some (0 : ℚ)) none none),
  (LogRow.mk (227 : ℤ) "RUN" (some 0) (some 1) (some "T1") (some Sched.RR) (some "rr_1") (some (122 : ℤ)) (some (100 : ℤ)) (some (0 : ℚ)) none none),
  (LogRow.mk (226 : ℤ) "RUN" (some 0) (some 1) (some "T1") (some Sched.RR) (some "rr_1") (some (123 : ℤ)) (some (100 : ℤ)) (some (0 : ℚ)) none none),
  (LogRow.mk (225 : ℤ) "RUN" (some 0) (some 1) (some "T1") (some Sched.RR) (some "rr_1") (some (124 : ℤ)) (some (100 : ℤ)) (some (0 : ℚ)) none none),
  (LogRow.mk (224 : ℤ) "RUN" (some 0) (some 1) (some "T1") (some Sched.RR) (some "rr_1") (some (125 : ℤ)) (some (100 : ℤ)) (some (0 : ℚ)) none none),
  (LogRow.mk (223 : ℤ) "RUN" (some 0) (some 1) (some "T1") (some Sched.RR) (some "rr_1") (some (126 : ℤ)) (some (100 : ℤ)) (some (0 : ℚ)) none none),
  (LogRow.mk (222 : ℤ) "RUN" (some 0) (some 1) (some "T1") (some Sched.RR) (some "rr_1") (some (127 : ℤ)) (some (100 : ℤ)) (some (0 : ℚ)) none none),
  (LogRow.mk (221 : ℤ) "RUN" (some 0) (some 1) (some "T1") (some Sched.RR) (some "rr_1") (some (128 : ℤ)) (some (100 : ℤ)) (some (0 : ℚ)) none none),
  (LogRow.mk (220 : ℤ) "RUN" (some 0) (some 1) (some "T1") (some Sched.RR) (some "rr_1") (some (129 : ℤ)) (some (100 : ℤ)) (some (0 : ℚ)) none none),
  (LogRow.mk (219 : ℤ) "RUN" (some 0) (some 1) (some "T1") (some Sched.RR) (some "rr_1") (some (130 : ℤ)) (some (100 : ℤ)) (some (0 : ℚ)) none none),
  (LogRow.mk (218 : ℤ) "RUN" (some 0) (some 1) (some "T1") (some Sched.RR) (some "rr_1") (some (131 : ℤ)) (some (100 : ℤ)) (some (0 : ℚ)) none none),
  (LogRow.mk (217 : ℤ) "RUN" (some 0) (some 1) (some "T1") (some Sched.RR) (some "rr_1") (some (132 : ℤ)) (some (100 : ℤ)) (some (0 : ℚ)) none none),
  (LogRow.mk (216 : ℤ) "RUN" (some 0) (some 1) (some "T1") (some Sched.RR) (some "rr_1") (some (133 : ℤ)) (some (100 : ℤ)) (some (0 : ℚ)) none none),
  (LogRow.mk (215 : ℤ) "RUN" (some 0) (some 1) (some "T1") (some Sched.RR) (some "rr_1") (some (134 : ℤ)) (some (100 : ℤ)) (some (0 : ℚ)) none none),
  (LogRow.mk (214 : ℤ) "RUN" (some 0) (some 1) (some "T1") (some Sched.RR) (some "rr_1") (some (135 : ℤ)) (some (100 : ℤ)) (some (0 : ℚ)) none none),
  (LogRow.mk (213 : ℤ) "RUN" (some 0) (some 1) (some "T1") (some Sched.RR) (some "rr_1") (some (136 : ℤ)) (some (100 : ℤ)) (some (0 : ℚ)) none none),
  (LogRow.mk (212 : ℤ) "RUN" (some 0) (some 1) (some "T1") (some Sched.RR) (some "rr_1") (some (137 : ℤ)) (some (100 : ℤ)) (some (0 : ℚ)) none none),
  (LogRow.mk (211 : ℤ) "RUN" (some 0) (some 1) (some "T1") (some Sched.RR) (some "rr_1") (some (138 : ℤ)) (some (100 : ℤ)) (some (0 : ℚ)) none none),
  (LogRow.mk (210 : ℤ) "RUN" (some 0) (some 1) (some "T1") (some Sched.RR) (some "rr_1") (some (139 : ℤ)) (some (100 : ℤ)) (some (0 : ℚ)) none none),
  (LogRow.mk (209 : ℤ) "RUN" (some 0) (some 1) (some "T1") (some Sched.RR) (some "rr_1") (some (140 : ℤ)) (some (100 : ℤ)) (some (0 : ℚ)) none none),
  (LogRow.mk (208 : ℤ) "RUN" (some 0) (some 1) (some "T1") (some Sched.RR) (some "rr_1") (some (141 : ℤ)) (some (100 : ℤ)) (some (0 : ℚ)) none none),
  (LogRow.mk (207 : ℤ) "RUN" (some 0) (some 1) (some "T1") (some Sched.RR) (some "rr_1") (some (142 : ℤ)) (some (100 : ℤ)) (some (0 : ℚ)) none none),
  (LogRow.mk (206 : ℤ) "RUN" (some 0) (some 1) (some "T1") (some Sched.RR) (some "rr_1") (some (143 : ℤ)) (some (100 : ℤ)) (some (0 : ℚ)) none none),
  (LogRow.mk (205 : ℤ) "RUN" (some 0) (some 1) (some "T1") (some Sched.RR) (some "rr_1") (some (144 : ℤ)) (some (100 : ℤ)) (some (0 : ℚ)) none none),
  (LogRow.mk (204 : ℤ) "RUN" (some 0) (some 1) (some "T1") (some Sched.RR) (some "rr_1") (some (145 : ℤ)) (some (100 : ℤ)) (some (0 : ℚ)) none none),
  (LogRow.mk (203 : ℤ) "RUN" (some 0) (some 1) (some "T1") (some Sched.RR) (some "rr_1") (some (146 : ℤ)) (some (100 : ℤ)) (some (0 : ℚ)) none none),
  (LogRow.mk (202 : ℤ) "RUN" (some 0) (some 1) (some "T1") (some Sched.RR) (some "rr_1") (some (147 : ℤ)) (some (100 : ℤ)) (some (0 : ℚ)) none none),
  (LogRow.mk (201 : ℤ) "RUN" (some 0) (some 1) (some "T1") (some Sched.RR) (some "rr_1") (some (148 : ℤ)) (some (100 : ℤ)) (some (0 : ℚ)) none none),
  (LogRow.mk (200 : ℤ) "RUN" (some 0) (some 1) (some "T1") (some Sched.RR) (some "rr_1") (some (149 : ℤ)) (some (100 : ℤ)) (some (0 : ℚ)) none none),
  (LogRow.mk (200 : ℤ) "DISPATCH" (some 0) (some 1) (some "T1") (some Sched.RR) (some "rr_1") (some (150 : ℤ)) (some (100 : ℤ)) (some (0 : ℚ)) none none),
  (LogRow.mk (199 : ℤ) "PREEMPT" (some 0) (some 2) (some "T2") (some Sched.RR) (some "rr_1") (some (150 : ℤ)) (some (100 : ℤ)) (some (0 : ℚ)) none (some "quantum_expired")),
  (LogRow.mk (199 : ℤ) "RUN" (some 0) (some 2) (some "T2") (some Sched.RR) (some "rr_1") (some (150 : ℤ)) (some (100 : ℤ)) (some (0 : ℚ)) none none),
  (LogRow.mk (198 : ℤ) "RUN" (some 0) (some 2) (some "T2") (some Sched.RR) (some "rr_1") (some (151 : ℤ)) (some (100 : ℤ)) (some (0 : ℚ)) none none),
  (LogRow.mk (197 : ℤ) "RUN" (some 0) (some 2) (some "T2") (some Sched.RR) (some "rr_1") (some (152 : ℤ)) (some (100 : ℤ)) (some (0 : ℚ)) none none),
  (LogRow.mk (196 : ℤ) "RUN" (some 0) (some 2) (some "T2") (some Sched.RR) (some "rr_1") (some (153 : ℤ)) (some (100 : ℤ)) (some (0 : ℚ)) none none),
  (LogRow.mk (195 : ℤ) "RUN" (some 0) (some 2) (some "T2") (some Sched.RR) (some "rr_1") (some (154 : ℤ)) (some (100 : ℤ)) (some (0 : ℚ)) none none),
  (LogRow.mk (194 : ℤ) "RUN" (some 0) (some 2) (some "T2") (some Sched.RR) (some "rr_1") (some (155 : ℤ)) (some (100 : ℤ)) (some (0 : ℚ)) none none),
  (LogRow.mk (193 : ℤ) "RUN" (some 0) (some 2) (some "T2") (some Sched.RR) (some "rr_1") (some (156 : ℤ)) (some (100 : ℤ)) (some (0 : ℚ)) none none),
  (LogRow.mk (192 : ℤ) "RUN" (some 0) (some 2) (some "T2") (some Sched.RR) (some "rr_1") (some (157 : ℤ)) (some (100 : ℤ)) (some (0 : ℚ)) none none),
  (LogRow.mk (191 : ℤ) "RUN" (some 0) (some 2) (some "T2") (some Sched.RR) (some "rr_1") (some (158 : ℤ)) (some (100 : ℤ)) (some (0 : ℚ)) none none),
  (LogRow.mk (190 : ℤ) "RUN" (some 0) (some 2) (some "T2") (some Sched.RR) (some "rr_1") (some (159 : ℤ)) (some (100 : ℤ)) (some (0 : ℚ)) none none),
  (LogRow.mk (189 : ℤ) "RUN" (some 0) (some 2) (some "T2") (some Sched.RR) (some "rr_1") (some (160 : ℤ)) (some (100 : ℤ)) (some (0 : ℚ)) none none),
  (LogRow.mk (188 : ℤ) "RUN" (some 0) (some 2) (some "T2") (some Sched.RR) (some "rr_1") (some (161 : ℤ)) (some (100 : ℤ)) (some (0 : ℚ)) none none),
  (LogRow.mk (187 : ℤ) "RUN" (some 0) (some 2) (some "T2") (some Sched.RR) (some "rr_1") (some (162 : ℤ)) (some (100 : ℤ)) (some (0 : ℚ)) none none),
  (LogRow.mk (186 : ℤ) "RUN" (some 0) (some 2) (some "T2") (some Sched.RR) (some "rr_1") (some (163 : ℤ)) (some (100 : ℤ)) (some (0 : ℚ)) none none),
  (LogRow.mk (185 : ℤ) "RUN" (some 0) (some 2) (some "T2") (some Sched.RR) (some "rr_1") (some (164 : ℤ)) (some (100 : ℤ)) (some (0 : ℚ)) none none),
  (LogRow.mk (184 : ℤ) "RUN" (some 0) (some 2) (some "T2") (some Sched.RR) (some "rr_1") (some (165 : ℤ)) (some (100 : ℤ)) (some (0 : ℚ)) none none),
  (LogRow.mk (183 : ℤ) "RUN" (some 0) (some 2) (some "T2") (some Sched.RR) (some "rr_1") (some (166 : ℤ)) (some (100 : ℤ)) (some (0 : ℚ)) none none),
  (LogRow.mk (182 : ℤ) "RUN" (some 0) (some 2) (some "T2") (some Sched.RR) (some "rr_1") (some (167 : ℤ)) (some (100 : ℤ)) (some (0 : ℚ)) none none),
  (LogRow.mk (181 : ℤ) "RUN" (some 0) (some 2) (some "T2") (some Sched.RR) (some "rr_1") (some (168 : ℤ)) (some (100 : ℤ)) (some (0 : ℚ)) none none),
  (LogRow.mk (180 : ℤ) "RUN" (some 0) (some 2) (some "T2") (some Sched.RR) (some "rr_1") (some (169 : ℤ)) (some (100 : ℤ)) (some (0 : ℚ)) none none),
  (LogRow.mk (179 : ℤ) "RUN" (some 0) (some 2) (some "T2") (some Sched.RR) (some "rr_1") (some (170 : ℤ)) (some (100 : ℤ)) (some (0 : ℚ)) none none),
  (LogRow.mk (178 : ℤ) "RUN" (some 0) (some 2) (some "T2") (some Sched.RR) (some "rr_1") (some (171 : ℤ)) (some (100 : ℤ)) (some (0 : ℚ)) none none),
  (LogRow.mk (177 : ℤ) "RUN" (some 0) (some 2) (some "T2") (some Sched.RR) (some "rr_1") (some (172 : ℤ)) (some (100 : ℤ)) (some (0 : ℚ)) none none),
  (LogRow.mk (176 : ℤ) "RUN" (some 0) (some 2) (some "T2") (some Sched.RR) (some "rr_1") (some (173 : ℤ)) (some (100 : ℤ)) (some (0 : ℚ)) none none),
  (LogRow.mk (175 : ℤ) "RUN" (some 0) (some 2) (some "T2") (some Sched.RR) (some "rr_1") (some (174 : ℤ)) (some (100 : ℤ)) (some (0 : ℚ)) none none),
  (LogRow.mk (174 : ℤ) "RUN" (some 0) (some 2) (some "T2") (some Sched.RR) (some "rr_1") (some (175 : ℤ)) (some (100 : ℤ)) (some (0 : ℚ)) none none),
  (LogRow.mk (173 : ℤ) "RUN" (some 0) (some 2) (some "T2") (some Sched.RR) (some "rr_1") (some (176 : ℤ)) (some (100 : ℤ)) (some (0 : ℚ)) none none),
  (LogRow.mk (172 : ℤ) "RUN" (some 0) (some 2) (some "T2") (some Sched.RR) (some "rr_1") (some (177 : ℤ)) (some (100 : ℤ)) (some (0 : ℚ)) none none),
  (LogRow.mk (171 : ℤ) "RUN" (some 0) (some 2) (some "T2") (some Sched.RR) (some "rr_1") (some (178 : ℤ)) (some (100 : ℤ)) (some (0 : ℚ)) none none),
  (LogRow.mk (170 : ℤ) "RUN" (some 0) (some 2) (some "T2") (some Sched.RR) (some "rr_1") (some (179 : ℤ)) (some (100 : ℤ)) (some (0 : ℚ)) none none),
  (LogRow.mk (169 : ℤ) "RUN" (some 0) (some 2) (some "T2") (some Sched.RR) (some "rr_1") (some (180 : ℤ)) (some (100 : ℤ)) (some (0 : ℚ)) none none),
  (LogRow.mk (168 : ℤ) "RUN" (some 0) (some 2) (some "T2") (some Sched.RR) (some "rr_1") (some (181 : ℤ)) (some (100 : ℤ)) (some (0 : ℚ)) none none),
  (LogRow.mk (167 : ℤ) "RUN" (some 0) (some 2) (some "T2") (some Sched.RR) (some "rr_1") (some (182 : ℤ)) (some (100 : ℤ)) (some (0 : ℚ)) none none),
  (LogRow.mk (166 : ℤ) "RUN" (some 0) (some 2) (some "T2") (some Sched.RR) (some "rr_1") (some (183 : ℤ)) (some (100 : ℤ)) (some (0 : ℚ)) none none),
  (LogRow.mk (165 : ℤ) "RUN" (some 0) (some 2) (some "T2") (some Sched.RR) (some "rr_1") (some (184 : ℤ)) (some (100 : ℤ)) (some (0 : ℚ)) none none),
  (LogRow.mk (164 : ℤ) "RUN" (some 0) (some 2) (some "T2") (some Sched.RR) (some "rr_1") (some (185 : ℤ)) (some (100 : ℤ)) (some (0 : ℚ)) none none),
  (LogRow.mk (163 : ℤ) "RUN" (some 0) (some 2) (some "T2") (some Sched.RR) (some "rr_1") (some (186 : ℤ)) (some (100 : ℤ)) (some (0 : ℚ)) none none),
  (LogRow.mk (162 : ℤ) "RUN" (some 0) (some 2) (some "T2") (some Sched.RR) (some "rr_1") (some (187 : ℤ)) (some (100 : ℤ)) (some (0 : ℚ)) none none),
  (LogRow.mk (161 : ℤ) "RUN" (some 0) (some 2) (some "T2") (some Sched.RR) (some "rr_1") (some (188 : ℤ)) (some (100 : ℤ)) (some (0 : ℚ)) none none),
  (LogRow.mk (160 : ℤ) "RUN" (some 0) (some 2) (some "T2") (some Sched.RR) (some "rr_1") (some (189 : ℤ)) (some (100 : ℤ)) (some (0 : ℚ)) none none),
  (LogRow.mk (159 : ℤ) "RUN" (some 0) (some 2) (some "T2") (some Sched.RR) (some "rr_1") (some (190 : ℤ)) (some (100 : ℤ)) (some (0 : ℚ)) none none),
  (LogRow.mk (158 : ℤ) "RUN" (some 0) (some 2) (some "T2") (some Sched.RR) (some "rr_1") (some (191 : ℤ)) (some (100 : ℤ)) (some (0 : ℚ)) none none),
  (LogRow.mk (157 : ℤ) "RUN" (some 0) (some 2) (some "T2") (some Sched.RR) (some "rr_1") (some (192 : ℤ)) (some (100 : ℤ)) (some (0 : ℚ)) none none),
  (LogRow.mk (156 : ℤ) "RUN" (some 0) (some 2) (some "T2") (some Sched.RR) (some "rr_1") (some (193 : ℤ)) (some (100 : ℤ)) (some (0 : ℚ)) none none),
  (LogRow.mk (155 : ℤ) "RUN" (some 0) (some 2) (some "T2") (some Sched.RR) (some "rr_1") (some (194 : ℤ)) (some (100 : ℤ)) (some (0 : ℚ)) none none),
  (LogRow.mk (154 : ℤ) "RUN" (some 0) (some 2) (some "T2") (some Sched.RR) (some "rr_1") (some (195 : ℤ)) (some (100 : ℤ)) (some (0 : ℚ)) none none),
  (LogRow.mk (153 : ℤ) "RUN" (some 0) (some 2) (some "T2") (some Sched.RR) (some "rr_1") (some (196 : ℤ)) (some (100 : ℤ)) (some (0 : ℚ)) none none),
  (LogRow.mk (152 : ℤ) "RUN" (some 0) (some 2) (some "T2") (some Sched.RR) (some "rr_1") (some (197 : ℤ)) (some (100 : ℤ)) (some (0 : ℚ)) none none),
  (LogRow.mk (151 : ℤ) "RUN" (some 0) (some 2) (some "T2") (some Sched.RR) (some "rr_1") (some (198 : ℤ)) (some (100 : ℤ)) (some (0 : ℚ)) none none),
  (LogRow.mk (150 : ℤ) "RUN" (some 0) (some 2) (some "T2") (some Sched.RR) (some "rr_1") (some (199 : ℤ)) (some (100 : ℤ)) (some (0 : ℚ)) none none),
  (LogRow.mk (149 : ℤ) "RUN" (some 0) (some 2) (some "T2") (some Sched.RR) (some "rr_1") (some (200 : ℤ)) (some (100 : ℤ)) (some (0 : ℚ)) none none),
  (LogRow.mk (148 : ℤ) "RUN" (some 0) (some 2) (some "T2") (some Sched.RR) (some "rr_1") (some (201 : ℤ)) (some (100 : ℤ)) (some (0 : ℚ)) none none),
  (LogRow.mk (147 : ℤ) "RUN" (some 0) (some 2) (some "T2") (some Sched.RR) (some "rr_1") (some (202 : ℤ)) (some (100 : ℤ)) (some (0 : ℚ)) none none),
  (LogRow.mk (146 : ℤ) "RUN" (some 0) (some 2) (some "T2") (some Sched.RR) (some "rr_1") (some (203 : ℤ)) (some (100 : ℤ)) (some (0 : ℚ)) none none),
  (LogRow.mk (145 : ℤ) "RUN" (some 0) (some 2) (some "T2") (some Sched.RR) (some "rr_1") (some (204 : ℤ)) (some (100 : ℤ)) (some (0 : ℚ)) none none),
  (LogRow.mk (144 : ℤ) "RUN" (some 0) (some 2) (some "T2") (some Sched.RR) (some "rr_1") (some (205 : ℤ)) (some (100 : ℤ)) (some (0 : ℚ)) none none),
  (LogRow.mk (143 : ℤ) "RUN" (some 0) (some 2) (some "T2") (some Sched.RR) (some "rr_1") (some (206 : ℤ)) (some (100 : ℤ)) (some (0 : ℚ)) none none),
  (LogRow.mk (142 : ℤ) "RUN" (some 0) (some 2) (some "T2") (some Sched.RR) (some "rr_1") (some (207 : ℤ)) (some (100 : ℤ)) (some (0 : ℚ)) none none),
  (LogRow.mk (141 : ℤ) "RUN" (some 0) (some 2) (some "T2") (some Sched.RR) (some "rr_1") (some (208 : ℤ)) (some (100 : ℤ)) (some (0 : ℚ)) none none),
  (LogRow.mk (140 : ℤ) "RUN" (some 0) (some 2) (some "T2") (some Sched.RR) (some "rr_1") (some (209 : ℤ)) (some (100 : ℤ)) (some (0 : ℚ)) none none),
  (LogRow.mk (139 : ℤ) "RUN" (some 0) (some 2) (some "T2") (some Sched.RR) (some "rr_1") (some (210 : ℤ)) (some (100 : ℤ)) (some (0 : ℚ)) none none),
  (LogRow.mk (138 : ℤ) "RUN" (some 0) (some 2) (some "T2") (some Sched.RR) (some "rr_1") (some (211 : ℤ)) (some (100 : ℤ)) (some (0 : ℚ)) none none),
  (LogRow.mk (137 : ℤ) "RUN" (some 0) (some 2) (some "T2") (some Sched.RR) (some "rr_1") (some (212 : ℤ)) (some (100 : ℤ)) (some (0 : ℚ)) none none),
  (LogRow.mk (136 : ℤ) "RUN" (some 0) (some 2) (some "T2") (some Sched.RR) (some "rr_1") (some (213 : ℤ)) (some (100 : ℤ)) (some (0 : ℚ)) none none),
  (LogRow.mk (135 : ℤ) "RUN" (some 0) (some 2) (some "T2") (some Sched.RR) (some "rr_1") (some (214 : ℤ)) (some (100 : ℤ)) (some (0 : ℚ)) none none),
  (LogRow.mk (134 : ℤ) "RUN" (some 0) (some 2) (some "T2") (some Sched.RR) (some "rr_1") (some (215 : ℤ)) (some (100 : ℤ)) (some (0 : ℚ)) none none),
  (LogRow.mk (133 : ℤ) "RUN" (some 0) (some 2) (some "T2") (some Sched.RR) (some "rr_1") (some (216 : ℤ)) (some (100 : ℤ)) (some (0 : ℚ)) none none),
  (LogRow.mk (132 : ℤ) "RUN" (some 0) (some 2) (some "T2") (some Sched.RR) (some "rr_1") (some (217 : ℤ)) (some (100 : ℤ)) (some (0 : ℚ)) none none),
  (LogRow.mk (131 : ℤ) "RUN" (some 0) (some 2) (some "T2") (some Sched.RR) (some "rr_1") (some (218 : ℤ)) (some (100 : ℤ)) (some (0 : ℚ)) none none),
  (LogRow.mk (130 : ℤ) "RUN" (some 0) (some 2) (some "T2") (some Sched.RR) (some "rr_1") (some (219 : ℤ)) (some (100 : ℤ)) (some (0 : ℚ)) none none),
  (LogRow.mk (129 : ℤ) "RUN" (some 0) (some 2) (some "T2") (some Sched.RR) (some "rr_1") (some (220 : ℤ)) (some (100 : ℤ)) (some (0 : ℚ)) none none),
  (LogRow.mk (128 : ℤ) "RUN" (some 0) (some 2) (some "T2") (some Sched.RR) (some "rr_1") (some (221 : ℤ)) (some (100 : ℤ)) (some (0 : ℚ)) none none),
  (LogRow.mk (127 : ℤ) "RUN" (some 0) (some 2) (some "T2") (some Sched.RR) (some "rr_1") (some (222 : ℤ)) (some (100 : ℤ)) (some (0 : ℚ)) none none),
  (LogRow.mk (126 : ℤ) "RUN" (some 0) (some 2) (some "T2") (some Sched.RR) (some "rr_1") (some (223 : ℤ)) (some (100 : ℤ)) (some (0 : ℚ)) none none),
  (LogRow.mk (125 : ℤ) "RUN" (some 0) (some 2) (some "T2") (some Sched.RR) (some "rr_1") (some (224 : ℤ)) (some (100 : ℤ)) (some (0 : ℚ)) none none),
  (LogRow.mk (124 : ℤ) "RUN" (some 0) (some 2) (some "T2") (some Sched.RR) (some "rr_1") (some (225 : ℤ)) (some (100 : ℤ)) (some (0 : ℚ)) none none),
  (LogRow.mk (123 : ℤ) "RUN" (some 0) (some 2) (some "T2") (some Sched.RR) (some "rr_1") (some (226 : ℤ)) (some (100 : ℤ)) (some (0 : ℚ)) none none),
  (LogRow.mk (122 : ℤ) "RUN" (some 0) (some 2) (some "T2") (some Sched.RR) (some "rr_1") (some (227 : ℤ)) (some (100 : ℤ)) (some (0 : ℚ)) none none),
  (LogRow.mk (121 : ℤ) "RUN" (some 0) (some 2) (some "T2") (some Sched.RR) (some "rr_1") (some (228 : ℤ)) (some (100 : ℤ)) (some (0 : ℚ)) none none),
  (LogRow.mk (120 : ℤ) "RUN" (some 0) (some 2) (some "T2") (some Sched.RR) (some "rr_1") (some (229 : ℤ)) (some (100 : ℤ)) (some (0 : ℚ)) none none),
  (LogRow.mk (119 : ℤ) "RUN" (some 0) (some 2) (some "T2") (some Sched.RR) (some "rr_1") (some (230 : ℤ)) (some (100 : ℤ)) (some (0 : ℚ)) none none),
  (LogRow.mk (118 : ℤ) "RUN" (some 0) (some 2) (some "T2") (some Sched.RR) (some "rr_1") (some (231 : ℤ)) (some (100 : ℤ)) (some (0 : ℚ)) none none),
  (LogRow.mk (117 : ℤ) "RUN" (some 0) (some 2) (some "T2") (some Sched.RR) (some "rr_1") (some (232 : ℤ)) (some (100 : ℤ)) (some (0 : ℚ)) none none),
  (LogRow.mk (116 : ℤ) "RUN" (some 0) (some 2) (some "T2") (some Sched.RR) (some "rr_1") (some (233 : ℤ)) (some (100 : ℤ)) (some (0 : ℚ)) none none),
  (LogRow.mk (115 : ℤ) "RUN" (some 0) (some 2) (some "T2") (some Sched.RR) (some "rr_1") (some (234 : ℤ)) (some (100 : ℤ)) (some (0 : ℚ)) none none),
  (LogRow.mk (114 : ℤ) "RUN" (some 0) (some 2) (some "T2") (some Sched.RR) (some "rr_1") (some (235 : ℤ)) (some (100 : ℤ)) (some (0 : ℚ)) none none),
  (LogRow.mk (113 : ℤ) "RUN" (some 0) (some 2) (some "T2") (some Sched.RR) (some "rr_1") (some (236 : ℤ)) (some (100 : ℤ)) (some (0 : ℚ)) none none),
  (LogRow.mk (112 : ℤ) "RUN" (some 0) (some 2) (some "T2") (some Sched.RR) (some "rr_1") (some (237 : ℤ)) (some (100 : ℤ)) (some (0 : ℚ)) none none),
  (LogRow.mk (111 : ℤ) "RUN" (some 0) (some 2) (some "T2") (some Sched.RR) (some "rr_1") (some (238 : ℤ)) (some (100 : ℤ)) (some (0 : ℚ)) none none),
  (LogRow.mk (110 : ℤ) "RUN" (some 0) (some 2) (some "T2") (some Sched.RR) (some "rr_1") (some (239 : ℤ)) (some (100 : ℤ)) (some (0 : ℚ)) none none),
  (LogRow.mk (109 : ℤ) "RUN" (some 0) (some 2) (some "T2") (some Sched.RR) (some "rr_1") (some (240 : ℤ)) (some (100 : ℤ)) (some (0 : ℚ)) none none),
  (LogRow.mk (108 : ℤ) "RUN" (some 0) (some 2) (some "T2") (some Sched.RR) (some "rr_1") (some (241 : ℤ)) (some (100 : ℤ)) (some (0 : ℚ)) none none),
  (LogRow.mk (107 : ℤ) "RUN" (some 0) (some 2) (some "T2") (some Sched.RR) (some "rr_1") (some (242 : ℤ)) (some (100 : ℤ)) (some (0 : ℚ)) none none),
  (LogRow.mk (106 : ℤ) "RUN" (some 0) (some 2) (some "T2") (some Sched.RR) (some "rr_1") (some (243 : ℤ)) (some (100 : ℤ)) (some (0 : ℚ)) none none),
  (LogRow.mk (105 : ℤ) "RUN" (some 0) (some 2) (some "T2") (some Sched.RR) (some "rr_1") (some (244 : ℤ)) (some (100 : ℤ)) (some (0 : ℚ)) none none),
  (LogRow.mk (104 : ℤ) "RUN" (some 0) (some 2) (some "T2") (some Sched.RR) (some "rr_1") (some (245 : ℤ)) (some (100 : ℤ)) (some (0 : ℚ)) none none),
  (LogRow.mk (103 : ℤ) "RUN" (some 0) (some 2) (some "T2") (some Sched.RR) (some "rr_1") (some (246 : ℤ)) (some (100 : ℤ)) (some (0 : ℚ)) none none),
  (LogRow.mk (102 : ℤ) "RUN" (some 0) (some 2) (some "T2") (some Sched.RR) (some "rr_1") (some (247 : ℤ)) (some (100 : ℤ)) (some (0 : ℚ)) none none),
  (LogRow.mk (101 : ℤ) "RUN" (some 0) (some 2) (some "T2") (some Sched.RR) (some "rr_1") (some (248 : ℤ)) (some (100 : ℤ)) (some (0 : ℚ)) none none),
  (LogRow.mk (100 : ℤ) "RUN" (some 0) (some 2) (some "T2") (some Sched.RR) (some "rr_1") (some (249 : ℤ)) (some (100 : ℤ)) (some (0 : ℚ)) none none),
  (LogRow.mk (100 : ℤ) "DISPATCH" (some 0) (some 2) (some "T2") (some Sched.RR) (some "rr_1") (some (250 : ℤ)) (some (100 : ℤ)) (some (0 : ℚ)) none none),
  (LogRow.mk (99 : ℤ) "PREEMPT" (some 0) (some 1) (some "T1") (some Sched.RR) (some "rr_1") (some (150 : ℤ)) (some (100 : ℤ)) (some (0 : ℚ)) none (some "quantum_expired")),
  (LogRow.mk (99 : ℤ) "RUN" (some 0) (some 1) (some "T1") (some Sched.RR) (some "rr_1") (some (150 : ℤ)) (some (100 : ℤ)) (some (0 : ℚ)) none none),
  (LogRow.mk (98 : ℤ) "RUN" (some 0) (some 1) (some "T1") (some Sched.RR) (some "rr_1") (some (151 : ℤ)) (some (100 : ℤ)) (some (0 : ℚ)) none none),
  (LogRow.mk (97 : ℤ) "RUN" (some 0) (some 1) (some "T1") (some Sched.RR) (some "rr_1") (some (152 : ℤ)) (some (100 : ℤ)) (some (0 : ℚ)) none none),
  (LogRow.mk (96 : ℤ) "RUN" (some 0) (some 1) (some "T1") (some Sched.RR) (some "rr_1") (some (153 : ℤ)) (some (100 : ℤ)) (some (0 : ℚ)) none none),
  (LogRow.mk (95 : ℤ) "RUN" (some 0) (some 1) (some "T1") (some Sched.RR) (some "rr_1") (some (154 : ℤ)) (some (100 : ℤ)) (some (0 : ℚ)) none none),
  (LogRow.mk (94 : ℤ) "RUN" (some 0) (some 1) (some "T1") (some Sched.RR) (some "rr_1") (some (155 : ℤ)) (some (100 : ℤ)) (some (0 : ℚ)) none none),
  (LogRow.mk (93 : ℤ) "RUN" (some 0) (some 1) (some "T1") (some Sched.RR) (some "rr_1") (some (156 : ℤ)) (some (100 : ℤ)) (some (0 : ℚ)) none none),
  (LogRow.mk (92 : ℤ) "RUN" (some 0) (some 1) (some "T1") (some Sched.RR) (some "rr_1") (some (157 : ℤ)) (some (100 : ℤ)) (some (0 : ℚ)) none none),
  (LogRow.mk (91 : ℤ) "RUN" (some 0) (some 1) (some "T1") (some Sched.RR) (some "rr_1") (some (158 : ℤ)) (some (100 : ℤ)) (some (0 : ℚ)) none none),
  (LogRow.mk (90 : ℤ) "RUN" (some 0) (some 1) (some "T1") (some Sched.RR) (some "rr_1") (some (159 : ℤ)) (some (100 : ℤ)) (some (0 : ℚ)) none none),
  (LogRow.mk (89 : ℤ) "RUN" (some 0) (some 1) (some "T1") (some Sched.RR) (some "rr_1") (some (160 : ℤ)) (some (100 : ℤ)) (some (0 : ℚ)) none none),
  (LogRow.mk (88 : ℤ) "RUN" (some 0) (some 1) (some "T1") (some Sched.RR) (some "rr_1") (some (161 : ℤ)) (some (100 : ℤ)) (some (0 : ℚ)) none none),
  (LogRow.mk (87 : ℤ) "RUN" (some 0) (some 1) (some "T1") (some Sched.RR) (some "rr_1") (some (162 : ℤ)) (some (100 : ℤ)) (some (0 : ℚ)) none none),
  (LogRow.mk (86 : ℤ) "RUN" (some 0) (some 1) (some "T1") (some Sched.RR) (some "rr_1") (some (163 : ℤ)) (some (100 : ℤ)) (some (0 : ℚ)) none none),
  (LogRow.mk (85 : ℤ) "RUN" (some 0) (some 1) (some "T1") (some Sched.RR) (some "rr_1") (some (164 : ℤ)) (some (100 : ℤ)) (some (0 : ℚ)) none none),
  (LogRow.mk (84 : ℤ) "RUN" (some 0) (some 1) (some "T1") (some Sched.RR) (some "rr_1") (some (165 : ℤ)) (some (100 : ℤ)) (some (0 : ℚ)) none none),
  (LogRow.mk (83 : ℤ) "RUN" (some 0) (some 1) (some "T1") (some Sched.RR) (some "rr_1") (some (166 : ℤ)) (some (100 : ℤ)) (some (0 : ℚ)) none none),
  (LogRow.mk (82 : ℤ) "RUN" (some 0) (some 1) (some "T1") (some Sched.RR) (some "rr_1") (some (167 : ℤ)) (some (100 : ℤ)) (some (0 : ℚ)) none none),
  (LogRow.mk (81 : ℤ) "RUN" (some 0) (some 1) (some "T1") (some Sched.RR) (some "rr_1") (some (168 : ℤ)) (some (100 : ℤ)) (some (0 : ℚ)) none none),
  (LogRow.mk (80 : ℤ) "RUN" (some 0) (some 1) (some "T1") (some Sched.RR) (some "rr_1") (some (169 : ℤ)) (some (100 : ℤ)) (some (0 : ℚ)) none none),
  (LogRow.mk (79 : ℤ) "RUN" (some 0) (some 1) (some "T1") (some Sched.RR) (some "rr_1") (some (170 : ℤ)) (some (100 : ℤ)) (some (0 : ℚ)) none none),
  (LogRow.mk (78 : ℤ) "RUN" (some 0) (some 1) (some "T1") (some Sched.RR) (some "rr_1") (some (171 : ℤ)) (some (100 : ℤ)) (some (0 : ℚ)) none none),
  (LogRow.mk (77 : ℤ) "RUN" (some 0) (some 1) (some "T1") (some Sched.RR) (some "rr_1") (some (172 : ℤ)) (some (100 : ℤ)) (some (0 : ℚ)) none none),
  (LogRow.mk (76 : ℤ) "RUN" (some 0) (some 1) (some "T1") (some Sched.RR) (some "rr_1") (some (173 : ℤ)) (some (100 : ℤ)) (some (0 : ℚ)) none none),
  (LogRow.mk (75 : ℤ) "RUN" (some 0) (some 1) (some "T1") (some Sched.RR) (some "rr_1") (some (174 : ℤ)) (some (100 : ℤ)) (some (0 : ℚ)) none none),
  (LogRow.mk (74 : ℤ) "RUN" (some 0) (some 1) (some "T1") (some Sched.RR) (some "rr_1") (some (175 : ℤ)) (some (100 : ℤ)) (some (0 : ℚ)) none none),
  (LogRow.mk (73 : ℤ) "RUN" (some 0) (some 1) (some "T1") (some Sched.RR) (some "rr_1") (some (176 : ℤ)) (some (100 : ℤ)) (some (0 : ℚ)) none none),
  (LogRow.mk (72 : ℤ) "RUN" (some 0) (some 1) (some "T1") (some Sched.RR) (some "rr_1") (some (177 : ℤ)) (some (100 : ℤ)) (some (0 : ℚ)) none none),
  (LogRow.mk (71 : ℤ) "RUN" (some 0) (some 1) (some "T1") (some Sched.RR) (some "rr_1") (some (178 : ℤ)) (some (100 : ℤ)) (some (0 : ℚ)) none none),
  (LogRow.mk (70 : ℤ) "RUN" (some 0) (some 1) (some "T1") (some Sched.RR) (some "rr_1") (some (179 : ℤ)) (some (100 : ℤ)) (some (0 : ℚ)) none none),
  (LogRow.mk (69 : ℤ) "RUN" (some 0) (some 1) (some "T1") (some Sched.RR) (some "rr_1") (some (180 : ℤ)) (some (100 : ℤ)) (some (0 : ℚ)) none none),
  (LogRow.mk (68 : ℤ) "RUN" (some 0) (some 1) (some "T1") (some Sched.RR) (some "rr_1") (some (181 : ℤ)) (some (100 : ℤ)) (some (0 : ℚ)) none none),
  (LogRow.mk (67 : ℤ) "RUN" (some 0) (some 1) (some "T1") (some Sched.RR) (some "rr_1") (some (182 : ℤ)) (some (100 : ℤ)) (some (0 : ℚ)) none none),
  (LogRow.mk (66 : ℤ) "RUN" (some 0) (some 1) (some "T1") (some Sched.RR) (some "rr_1") (some (183 : ℤ)) (some (100 : ℤ)) (some (0 : ℚ)) none none),
  (LogRow.mk (65 : ℤ) "RUN" (some 0) (some 1) (some "T1") (some Sched.RR) (some "rr_1") (some (184 : ℤ)) (some (100 : ℤ)) (some (0 : ℚ)) none none),
  (LogRow.mk (64 : ℤ) "RUN" (some 0) (some 1) (some "T1") (some Sched.RR) (some "rr_1") (some (185 : ℤ)) (some (100 : ℤ)) (some (0 : ℚ)) none none),
  (LogRow.mk (63 : ℤ) "RUN" (some 0) (some 1) (some "T1") (some Sched.RR) (some "rr_1") (some (186 : ℤ)) (some (100 : ℤ)) (some (0 : ℚ)) none none),
  (LogRow.mk (62 : ℤ) "RUN" (some 0) (some 1) (some "T1") (some Sched.RR) (some "rr_1") (some (187 : ℤ)) (some (100 : ℤ)) (some (0 : ℚ)) none none),
  (LogRow.mk (61 : ℤ) "RUN" (some 0) (some 1) (some "T1") (some Sched.RR) (some "rr_1") (some (188 : ℤ)) (some (100 : ℤ)) (some (0 : ℚ)) none none),
  (LogRow.mk (60 : ℤ) "RUN" (some 0) (some 1) (some "T1") (some Sched.RR) (some "rr_1") (some (189 : ℤ)) (some (100 : ℤ)) (some (0 : ℚ)) none none),
  (LogRow.mk (59 : ℤ) "RUN" (some 0) (some 1) (some "T1") (some Sched.RR) (some "rr_1") (some (190 : ℤ)) (some (100 : ℤ)) (some (0 : ℚ)) none none),
  (LogRow.mk (58 : ℤ) "RUN" (some 0) (some 1) (some "T1") (some Sched.RR) (some "rr_1") (some (191 : ℤ)) (some (100 : ℤ)) (some (0 : ℚ)) none none),
  (LogRow.mk (57 : ℤ) "RUN" (some 0) (some 1) (some "T1") (some Sched.RR) (some "rr_1") (some (192 : ℤ)) (some (100 : ℤ)) (some (0 : ℚ)) none none),
  (LogRow.mk (56 : ℤ) "RUN" (some 0) (some 1) (some "T1") (some Sched.RR) (some "rr_1") (some (193 : ℤ)) (some (100 : ℤ)) (some (0 : ℚ)) none none),
  (LogRow.mk (55 : ℤ) "RUN" (some 0) (some 1) (some "T1") (some Sched.RR) (some "rr_1") (some (194 : ℤ)) (some (100 : ℤ)) (some (0 : ℚ)) none none),
  (LogRow.mk (54 : ℤ) "RUN" (some 0) (some 1) (some "T1") (some Sched.RR) (some "rr_1") (some (195 : ℤ)) (some (100 : ℤ)) (some (0 : ℚ)) none none),
  (LogRow.mk (53 : ℤ) "RUN" (some 0) (some 1) (some "T1") (some Sched.RR) (some "rr_1") (some (196 : ℤ)) (some (100 : ℤ)) (some (0 : ℚ)) none none),
  (LogRow.mk (52 : ℤ) "RUN" (some 0) (some 1) (some "T1") (some Sched.RR) (some "rr_1") (some (197 : ℤ)) (some (100 : ℤ)) (some (0 : ℚ)) none none),
  (LogRow.mk (51 : ℤ) "RUN" (some 0) (some 1) (some "T1") (some Sched.RR) (some "rr_1") (some (198 : ℤ)) (some (100 : ℤ)) (some (0 : ℚ)) none none),
  (LogRow.mk (50 : ℤ) "RUN" (some 0) (some 1) (some "T1") (some Sched.RR) (some "rr_1") (some (199 : ℤ)) (some (100 : ℤ)) (some (0 : ℚ)) none none),
  (LogRow.mk (49 : ℤ) "RUN" (some 0) (some 1) (some "T1") (some Sched.RR) (some "rr_1") (some (200 : ℤ)) (some (100 : ℤ)) (some (0 : ℚ)) none none),
  (LogRow.mk (48 : ℤ) "RUN" (some 0) (some 1) (some "T1") (some Sched.RR) (some "rr_1") (some (201 : ℤ)) (some (100 : ℤ)) (some (0 : ℚ)) none none),
  (LogRow.mk (47 : ℤ) "RUN" (some 0) (some 1) (some "T1") (some Sched.RR) (some "rr_1") (some (202 : ℤ)) (some (100 : ℤ)) (some (0 : ℚ)) none none),
  (LogRow.mk (46 : ℤ) "RUN" (some 0) (some 1) (some "T1") (some Sched.RR) (some "rr_1") (some (203 : ℤ)) (some (100 : ℤ)) (some (0 : ℚ)) none none),
  (LogRow.mk (45 : ℤ) "RUN" (some 0) (some 1) (some "T1") (some Sched.RR) (some "rr_1") (some (204 : ℤ)) (some (100 : ℤ)) (some (0 : ℚ)) none none),
  (LogRow.mk (44 : ℤ) "RUN" (some 0) (some 1) (some "T1") (some Sched.RR) (some "rr_1") (some (205 : ℤ)) (some (100 : ℤ)) (some (0 : ℚ)) none none),
  (LogRow.mk (43 : ℤ) "RUN" (some 0) (some 1) (some "T1") (some Sched.RR) (some "rr_1") (some (206 : ℤ)) (some (100 : ℤ)) (some (0 : ℚ)) none none),
  (LogRow.mk (42 : ℤ) "RUN" (some 0) (some 1) (some "T1") (some Sched.RR) (some "rr_1") (some (207 : ℤ)) (some (100 : ℤ)) (some (0 : ℚ)) none none),
  (LogRow.mk (41 : ℤ) "RUN" (some 0) (some 1) (some "T1") (some Sched.RR) (some "rr_1") (some (208 : ℤ)) (some (100 : ℤ)) (some (0 : ℚ)) none none),
  (LogRow.mk (40 : ℤ) "RUN" (some 0) (some 1) (some "T1") (some Sched.RR) (some "rr_1") (some (209 : ℤ)) (some (100 : ℤ)) (some (0 : ℚ)) none none),
  (LogRow.mk (39 : ℤ) "RUN" (some 0) (some 1) (some "T1") (some Sched.RR) (some "rr_1") (some (210 : ℤ)) (some (100 : ℤ)) (some (0 : ℚ)) none none),
  (LogRow.mk (38 : ℤ) "RUN" (some 0) (some 1) (some "T1") (some Sched.RR) (some "rr_1") (some (211 : ℤ)) (some (100 : ℤ)) (some (0 : ℚ)) none none),
  (LogRow.mk (37 : ℤ) "RUN" (some 0) (some 1) (some "T1") (some Sched.RR) (some "rr_1") (some (212 : ℤ)) (some (100 : ℤ)) (some (0 : ℚ)) none none),
  (LogRow.mk (36 : ℤ) "RUN" (some 0) (some 1) (some "T1") (some Sched.RR) (some "rr_1") (some (213 : ℤ)) (some (100 : ℤ)) (some (0 : ℚ)) none none),
  (LogRow.mk (35 : ℤ) "RUN" (some 0) (some 1) (some "T1") (some Sched.RR) (some "rr_1") (some (214 : ℤ)) (some (100 : ℤ)) (some (0 : ℚ)) none none),
  (LogRow.mk (34 : ℤ) "RUN" (some 0) (some 1) (some "T1") (some Sched.RR) (some "rr_1") (some (215 : ℤ)) (some (100 : ℤ)) (some (0 : ℚ)) none none),
  (LogRow.mk (33 : ℤ) "RUN" (some 0) (some 1) (some "T1") (some Sched.RR) (some "rr_1") (some (216 : ℤ)) (some (100 : ℤ)) (some (0 : ℚ)) none none),
  (LogRow.mk (32 : ℤ) "RUN" (some 0) (some 1) (some "T1") (some Sched.RR) (some "rr_1") (some (217 : ℤ)) (some (100 : ℤ)) (some (0 : ℚ)) none none),
  (LogRow.mk (31 : ℤ) "RUN" (some 0) (some 1) (some "T1") (some Sched.RR) (some "rr_1") (some (218 : ℤ)) (some (100 : ℤ)) (some (0 : ℚ)) none none),
  (LogRow.mk (30 : ℤ) "RUN" (some 0) (some 1) (some "T1") (some Sched.RR) (some "rr_1") (some (219 : ℤ)) (some (100 : ℤ)) (some (0 : ℚ)) none none),
  (LogRow.mk (29 : ℤ) "RUN" (some 0) (some 1) (some "T1") (some Sched.RR) (some "rr_1") (some (220 : ℤ)) (some (100 : ℤ)) (some (0 : ℚ)) none none),
  (LogRow.mk (28 : ℤ) "RUN" (some 0) (some 1) (some "T1") (some Sched.RR) (some "rr_1") (some (221 : ℤ)) (some (100 : ℤ)) (some (0 : ℚ)) none none),
  (LogRow.mk (27 : ℤ) "RUN" (some 0) (some 1) (some "T1") (some Sched.RR) (some "rr_1") (some (222 : ℤ)) (some (100 : ℤ)) (some (0 : ℚ)) none none),
  (LogRow.mk (26 : ℤ) "RUN" (some 0) (some 1) (some "T1") (some Sched.RR) (some "rr_1") (some (223 : ℤ)) (some (100 : ℤ)) (some (0 : ℚ)) none none),
  (LogRow.mk (25 : ℤ) "RUN" (some 0) (some 1) (some "T1") (some Sched.RR) (some "rr_1") (some (224 : ℤ)) (some (100 : ℤ)) (some (0 : ℚ)) none none),
  (LogRow.mk (24 : ℤ) "RUN" (some 0) (some 1) (some "T1") (some Sched.RR) (some "rr_1") (some (225 : ℤ)) (some (100 : ℤ)) (some (0 : ℚ)) none none),
  (LogRow.mk (23 : ℤ) "RUN" (some 0) (some 1) (some "T1") (some Sched.RR) (some "rr_1") (some (226 : ℤ)) (some (100 : ℤ)) (some (0 : ℚ)) none none),
  (LogRow.mk (22 : ℤ) "RUN" (some 0) (some 1) (some "T1") (some Sched.RR) (some "rr_1") (some (227 : ℤ)) (some (100 : ℤ)) (some (0 : ℚ)) none none),
  (LogRow.mk (21 : ℤ) "RUN" (some 0) (some 1) (some "T1") (some Sched.RR) (some "rr_1") (some (228 : ℤ)) (some (100 : ℤ)) (some (0 : ℚ)) none none),
  (LogRow.mk (20 : ℤ) "RUN" (some 0) (some 1) (some "T1") (some Sched.RR) (some "rr_1") (some (229 : ℤ)) (some (100 : ℤ)) (some (0 : ℚ)) none none),
  (LogRow.mk (19 : ℤ) "RUN" (some 0) (some 1) (some "T1") (some Sched.RR) (some "rr_1") (some (230 : ℤ)) (some (100 : ℤ)) (some (0 : ℚ)) none none),
  (LogRow.mk (18 : ℤ) "RUN" (some 0) (some 1) (some "T1") (some Sched.RR) (some "rr_1") (some (231 : ℤ)) (some (100 : ℤ)) (some (0 : ℚ)) none none),
  (LogRow.mk (17 : ℤ) "RUN" (some 0) (some 1) (some "T1") (some Sched.RR) (some "rr_1") (some (232 : ℤ)) (some (100 : ℤ)) (some (0 : ℚ)) none none),
  (LogRow.mk (16 : ℤ) "RUN" (some 0) (some 1) (some "T1") (some Sched.RR) (some "rr_1") (some (233 : ℤ)) (some (100 : ℤ)) (some (0 : ℚ)) none none),
  (LogRow.mk (15 : ℤ) "RUN" (some 0) (some 1) (some "T1") (some Sched.RR) (some "rr_1") (some (234 : ℤ)) (some (100 : ℤ)) (some (0 : ℚ)) none none),
  (LogRow.mk (14 : ℤ) "RUN" (some 0) (some 1) (some "T1") (some Sched.RR) (some "rr_1") (some (235 : ℤ)) (some (100 : ℤ)) (some (0 : ℚ)) none none),
  (LogRow.mk (13 : ℤ) "RUN" (some 0) (some 1) (some "T1") (some Sched.RR) (some "rr_1") (some (236 : ℤ)) (some (100 : ℤ)) (some (0 : ℚ)) none none),
  (LogRow.mk (12 : ℤ) "RUN" (some 0) (some 1) (some "T1") (some Sched.RR) (some "rr_1") (some (237 : ℤ)) (some (100 : ℤ)) (some (0 : ℚ)) none none),
  (LogRow.mk (11 : ℤ) "RUN" (some 0) (some 1) (some "T1") (some Sched.RR) (some "rr_1") (some (238 : ℤ)) (some (100 : ℤ)) (some (0 : ℚ)) none none),
  (LogRow.mk (10 : ℤ) "RUN" (some 0) (some 1) (some "T1") (some Sched.RR) (some "rr_1") (some (239 : ℤ)) (some (100 : ℤ)) (some (0 : ℚ)) none none),
  (LogRow.mk (9 : ℤ) "RUN" (some 0) (some 1) (some "T1") (some Sched.RR) (some "rr_1") (some (240 : ℤ)) (some (100 : ℤ)) (some (0 : ℚ)) none none),
  (LogRow.mk (8 : ℤ) "RUN" (some 0) (some 1) (some "T1") (some Sched.RR) (some "rr_1") (some (241 : ℤ)) (some (100 : ℤ)) (some (0 : ℚ)) none none),
  (LogRow.mk (7 : ℤ) "RUN" (some 0) (some 1) (some "T1") (some Sched.RR) (some "rr_1") (some (242 : ℤ)) (some (100 : ℤ)) (some (0 : ℚ)) none none),
  (LogRow.mk (6 : ℤ) "RUN" (some 0) (some 1) (some "T1") (some Sched.RR) (some "rr_1") (some (243 : ℤ)) (some (100 : ℤ)) (some (0 : ℚ)) none none),
  (LogRow.mk (5 : ℤ) "RUN" (some 0) (some 1) (some "T1") (some Sched.RR) (some "rr_1") (some (244 : ℤ)) (some (100 : ℤ)) (some (0 : ℚ)) none none),
  (LogRow.mk (4 : ℤ) "RUN" (some 0) (some 1) (some "T1") (some Sched.RR) (some "rr_1") (some (245 : ℤ)) (some (100 : ℤ)) (some (0 : ℚ)) none none),
  (LogRow.mk (3 : ℤ) "RUN" (some 0) (some 1) (some "T1") (some Sched.RR) (some "rr_1") (some (246 : ℤ)) (some (100 : ℤ)) (some (0 : ℚ)) none none),
  (LogRow.mk (2 : ℤ) "RUN" (some 0) (some 1) (some "T1") (some Sched.RR) (some "rr_1") (some (247 : ℤ)) (some (100 : ℤ)) (some (0 : ℚ)) none none),
  (LogRow.mk (1 : ℤ) "RUN" (some 0) (some 1) (some "T1") (some Sched.RR) (some "rr_1") (some (248 : ℤ)) (some (100 : ℤ)) (some (0 : ℚ)) none none),
  (LogRow.mk (0 : ℤ) "RUN" (some 0) (some 1) (some "T1") (some Sched.RR) (some "rr_1") (some (249 : ℤ)) (some (100 : ℤ)) (some (0 : ℚ)) none none),
  (LogRow.mk (0 : ℤ) "DISPATCH" (some 0) (some 1) (some "T1") (some Sched.RR) (some "rr_1") (some (250 : ℤ)) (some (100 : ℤ)) (some (0 : ℚ)) none none),
  (LogRow.mk (0 : ℤ) "ENQUEUE" none (some 2) (some "T2") (some Sched.RR) (some "rr_1") (some (250 : ℤ)) (some (100 : ℤ)) (some (0 : ℚ)) none none),
  (LogRow.mk (0 : ℤ) "ADMIT" none (some 2) (some "T2") (some Sched.RR) (some "rr_1") (some (250 : ℤ)) (some (100 : ℤ)) (some (0 : ℚ)) none none),
  (LogRow.mk (0 : ℤ) "ENQUEUE" none (some 1) (some "T1") (some Sched.RR) (some "rr_1") (some (250 : ℤ)) (some (100 : ℤ)) (some (0 : ℚ)) none none),
  (LogRow.mk (0 : ℤ) "ADMIT" none (some 1) (some "T1") (some Sched.RR) (some "rr_1") (some (250 : ℤ)) (some (100 : ℤ)) (some (0 : ℚ)) none none)]
  [(1, (Task.mk (Features.mk 1 none (some (0 : ℤ)) (some (250 : ℚ)) none none none (some "SCHED_RR")) 1 "T1" (250 : ℤ) (100 : ℤ) (0 : ℤ) none none none none none (some Sched.RR) (some "rr_1") (some (100 : ℤ)) (150 : ℤ) (some (0 : ℤ)) none (0 : ℚ) (1024 : ℚ) 0)),
  (2, (Task.mk (Features.mk 2 none (some (0 : ℤ)) (some (250 : ℚ)) none none none (some "SCHED_RR")) 2 "T2" (250 : ℤ) (150 : ℤ) (0 : ℤ) none none none none none (some Sched.RR) (some "rr_1") (some (100 : ℤ)) (100 : ℤ) (some (100 : ℤ)) none (0 : ℚ) (1024 : ℚ) 0))]
  [] 3

set_option maxRecDepth 20000 in
set_option maxHeartbeats 4000000 in
lemma hmidC3 :
    runTicks Mode.baseline defaultsOracle uids0 rowsC3 0 250 (initSim 1 100) = LmidC3 := by
  decide

lemma simC3_split :
    simC3 = runTicks Mode.baseline defaultsOracle uids0 rowsC3 ((0 : ℤ) + (250 : ℕ)) 250 LmidC3 := by
  rw [← hmidC3]
  show runTicks Mode.baseline defaultsOracle uids0 rowsC3 0 (250 + 250) (initSim 1 100) = _
  exact runTicks_add Mode.baseline defaultsOracle uids0 rowsC3 250 250 0 (initSim 1 100)

set_option maxRecDepth 20000 in
set_option maxHeartbeats 4000000 in
/-- C3 counterexample: in the claim's scenario the final `context_switches`
is 6 (each of the six dispatches increments it), not 5. -/
theorem C3_rr_alternation_counterexample :
    simC3.contextSwitches = 6 ∧ simC3.contextSwitches ≠ 5 := by
  rw [simC3_split]
  decide

set_option maxRecDepth 20000 in
set_option maxHeartbeats 4000000 in
/-- C3 amended: the two RR tasks do alternate in 100-tick quanta, but the
`PREEMPT` records carry the last tick of each quantum (99, 199, 299, 399),
the remaining 50-tick stints at `t = 400` and `t = 450` end in `COMPLETE`
records at `t = 449` and `t = 499` (both tasks complete by `t = 500`), and
the final `context_switches` is 6, one per dispatch. -/
theorem C3_rr_alternation_amended :
    ((simC3.logList.filter fun r => r.event = "DISPATCH").map fun r => (r.time, r.pid)) =
      [(0, some 1), (100, some 2), (200, some 1), (300, some 2), (400, some 1), (450, some 2)] ∧
    ((simC3.logList.filter fun r => r.event = "PREEMPT").map fun r => (r.time, r.pid)) =
      [(99, some 1), (199, some 2), (299, some 1), (399, some 2)] ∧
    ((simC3.logList.filter fun r => r.event = "COMPLETE").map fun r => (r.time, r.pid)) =
      [(449, some 1), (499, some 2)] ∧
    simC3.contextSwitches = 6 ∧ simC3.completed = [1, 2] := by
  rw [simC3_split]
  decide

end ClaimC3

/-! ## Determinism (claim C9)

The only nondeterministic input of the Python simulator is `uuid.uuid4()`,
modelled here as the uid stream passed to `runSim`.  Erasing uids commutes
with every scheduler operation, so two runs differing only in their uid
streams produce identical logs, metrics and counters. -/

def Task.scrub (t : Task) : Task := { t with uid := 0 }

def scrubT (l : List (ℕ × Task)) : List (ℕ × Task) :=
  l.map fun pr => (pr.1, Task.scrub pr.2)

def Sim.scrub (s : Sim) : Sim := { s with tasks := scrubT s.tasks }

lemma lookup_scrubT (p : ℕ) :
    ∀ l : List (ℕ × Task), (scrubT l).lookup p = (l.lookup p).map Task.scrub := by
  intro l
  induction l with
  | nil => rfl
  | cons pr rest ih =>
    obtain ⟨q, u⟩ := pr
    show ((q, Task.scrub u) :: scrubT rest).lookup p = _
    rw [List.lookup_cons, List.lookup_cons]
    cases hq : p == q
    · exact ih
    · rfl

lemma lookupTask_scrub (s : Sim) (p : ℕ) :
    lookupTask (Sim.scrub s) p = (lookupTask s p).map Task.scrub :=
  lookup_scrubT p s.tasks

lemma updBindings_scrub (p : ℕ) (t : Task) :
    ∀ l : List (ℕ × Task),
      updBindings p (Task.scrub t) (scrubT l) = scrubT (updBindings p t l) := by
  intro l
  induction l with
  | nil => rfl
  | cons pr rest ih =>
    obtain ⟨q, u⟩ := pr
    show updBindings p (Task.scrub t) ((q, Task.scrub u) :: scrubT rest) = _
    unfold updBindings
    split
    · rfl
    · show (q, Task.scrub u) :: updBindings p (Task.scrub t) (scrubT rest) = _
      rw [ih]
      rfl

lemma classifyTask_scrub (oracle : Features → Labels) (t : Task) :
    classifyTask oracle (Task.scrub t) = Task.scrub (classifyTask oracle t) := rfl

lemma estimateRemaining_scrub (t : Task) :
    estimateRemaining (Task.scrub t) = Task.scrub (estimateRemaining t) := by
  unfold estimateRemaining Task.scrub
  dsimp only []
  split <;> rfl

lemma setVrWeight_scrub (t : Task) :
    setVrWeight (Task.scrub t) = Task.scrub (setVrWeight t) := rfl

lemma assignSchedulerAndSubqueue_scrub (t : Task) :
    assignSchedulerAndSubqueue (Task.scrub t) = Task.scrub (assignSchedulerAndSubqueue t) := by
  unfold assignSchedulerAndSubqueue Task.scrub
  dsimp only []
  split
  · rfl
  split
  · rfl
  split
  · rfl
  split <;> rfl

lemma assignByPolicy_scrub (elseFn : Task → Task) (t : Task)
    (helse : elseFn (Task.scrub t) = Task.scrub (elseFn t)) :
    assignByPolicy elseFn (Task.scrub t) = Task.scrub (assignByPolicy elseFn t) := by
  unfold assignByPolicy Task.scrub
  dsimp only []
  split
  · rfl
  split
  · rfl
  split
  · rfl
  · exact helse

lemma scrub_quantum_baseline (X : Task) (rrq : ℤ) :
    (if (Task.scrub X).assigned_scheduler = some Sched.RR then
       { Task.scrub X with quantum := some (max 1 rrq) }
     else { Task.scrub X with quantum := none }) =
    Task.scrub (if X.assigned_scheduler = some Sched.RR then
       { X with quantum := some (max 1 rrq) }
     else { X with quantum := none }) := by
  unfold Task.scrub
  dsimp only []
  split <;> rfl

lemma scrub_quantum_ai (X : Task) :
    (if (Task.scrub X).assigned_scheduler = some Sched.RR then
       { Task.scrub X with
         quantum := some (rrQuantumAdmitAI ((Task.scrub X).subqueue_score.getD 2)) }
     else Task.scrub X) =
    Task.scrub (if X.assigned_scheduler = some Sched.RR then
       { X with quantum := some (rrQuantumAdmitAI (X.subqueue_score.getD 2)) }
     else X) := by
  unfold Task.scrub
  dsimp only []
  split <;> rfl

lemma admitTask_scrub (mode : Mode) (oracle : Features → Labels) (rrq : ℤ) (t0 : Task) :
    admitTask mode oracle rrq (Task.scrub t0) = Task.scrub (admitTask mode oracle rrq t0) := by
  cases mode
  case baseline =>
    show (if (setVrWeight (estimateRemaining (assignByPolicy _ (Task.scrub t0)))).assigned_scheduler
        = some Sched.RR then _ else _) = _
    rw [assignByPolicy_scrub
      (fun t => { t with assigned_scheduler := some Sched.CFS, subqueue := some "cfs_1" })
      t0 rfl, estimateRemaining_scrub, setVrWeight_scrub]
    exact scrub_quantum_baseline
      (setVrWeight (estimateRemaining (assignByPolicy
        (fun t => { t with assigned_scheduler := some Sched.CFS, subqueue := some "cfs_1" })
        t0))) rrq
  case ai =>
    show (if (setVrWeight (assignByPolicy _ (estimateRemaining _))).assigned_scheduler
        = some Sched.RR then _ else _) = _
    rw [show classifyTask oracle (Task.scrub t0) = Task.scrub (classifyTask oracle t0) from rfl]
    rw [show ({ Task.scrub (classifyTask oracle t0) with
          subqueue_score := some (computeSubqueueScore (Task.scrub (classifyTask oracle t0))) })
        = Task.scrub { classifyTask oracle t0 with
          subqueue_score := some (computeSubqueueScore (classifyTask oracle t0)) } from rfl]
    rw [estimateRemaining_scrub,
      assignByPolicy_scrub assignSchedulerAndSubqueue _
        (assignSchedulerAndSubqueue_scrub _),
      setVrWeight_scrub]
    exact scrub_quantum_ai _

lemma setTask_scrub (t : Task) (s : Sim) :
    setTask (Task.scrub t) (Sim.scrub s) = Sim.scrub (setTask t s) := by
  show { Sim.scrub s with tasks := updBindings (Task.scrub t).pid (Task.scrub t) (scrubT s.tasks) }
    = Sim.scrub { s with tasks := updBindings t.pid t s.tasks }
  rw [show (Task.scrub t).pid = t.pid from rfl, updBindings_scrub]
  rfl

lemma enqueueTask_scrub (t : Task) (s : Sim) :
    enqueueTask (Task.scrub t) (Sim.scrub s) = Sim.scrub (enqueueTask t s) := by
  unfold enqueueTask
  dsimp only []
  rw [show (Task.scrub t).assigned_scheduler = t.assigned_scheduler from rfl]
  cases t.assigned_scheduler.getD Sched.CFS <;> rfl

lemma admitFn_scrub (mode : Mode) (oracle : Features → Labels) (t0 : Task) (s : Sim) :
    admitFn mode oracle (Task.scrub t0) (Sim.scrub s) = Sim.scrub (admitFn mode oracle t0 s) := by
  unfold admitFn
  dsimp only []
  rw [show (Sim.scrub s).rrQuantumCfg = s.rrQuantumCfg from rfl, admitTask_scrub]
  rw [setTask_scrub]
  rw [show addLog (mkLog (Sim.scrub (setTask (admitTask mode oracle s.rrQuantumCfg t0) s)).time
        "ADMIT" none (some (Task.scrub (admitTask mode oracle s.rrQuantumCfg t0))) none)
        (Sim.scrub (setTask (admitTask mode oracle s.rrQuantumCfg t0) s))
      = Sim.scrub (addLog (mkLog (setTask (admitTask mode oracle s.rrQuantumCfg t0) s).time
        "ADMIT" none (some (admitTask mode oracle s.rrQuantumCfg t0)) none)
        (setTask (admitTask mode oracle s.rrQuantumCfg t0) s)) from rfl]
  exact enqueueTask_scrub _ _

lemma liveVr_scrub (s : Sim) : liveVr (Sim.scrub s) = liveVr s := by
  funext p
  unfold liveVr
  rw [show (Sim.scrub s).tasks = scrubT s.tasks from rfl, lookup_scrubT]
  cases s.tasks.lookup p <;> rfl

lemma runnableSetWeight_scrub (s : Sim) :
    runnableSetWeight (Sim.scrub s) = runnableSetWeight s := by
  unfold runnableSetWeight
  rw [show (Sim.scrub s).cfsQ = s.cfsQ from rfl]
  congr 1
  apply List.map_congr_left
  intro e _
  rw [lookupTask_scrub]
  cases lookupTask s e.pid <;> rfl

lemma quantumAtDispatch_scrub (mode : Mode) (sched : Sched) (s : Sim) (t : Task) :
    quantumAtDispatch mode sched (Sim.scrub s) (Task.scrub t) = quantumAtDispatch mode sched s t := by
  cases sched
  case CFS =>
    show (match mode with | _ => _) = _
    unfold quantumAtDispatch
    dsimp only []
    rw [runnableSetWeight_scrub]
    rfl
  case FIFO => rfl
  case RR => cases mode <;> rfl
  case IDLE => rfl

lemma dispatchCommon_scrub (mode : Mode) (cid : ℕ) (sched : Sched) (t : Task) (s : Sim) :
    dispatchCommon mode cid sched (Task.scrub t) (Sim.scrub s) =
      Sim.scrub (dispatchCommon mode cid sched t s) := by
  unfold dispatchCommon
  dsimp only []
  rw [quantumAtDispatch_scrub]
  rw [show ({ Task.scrub t with
        quantum := some (quantumAtDispatch mode sched s t),
        first_start := (match (Task.scrub t).first_start with
          | none => some (Sim.scrub s).time
          | some x => some x) })
      = Task.scrub { t with
        quantum := some (quantumAtDispatch mode sched s t),
        first_start := (match t.first_start with
          | none => some s.time
          | some x => some x) } from rfl]
  rw [setTask_scrub]
  rfl

lemma pick_scrub (s : Sim) : pick (Sim.scrub s) = pick s := rfl

lemma dispatchFn_scrub (mode : Mode) (cid : ℕ) (sched : Sched) (s : Sim) :
    dispatchFn mode cid sched (Sim.scrub s) = Sim.scrub (dispatchFn mode cid sched s) := by
  cases sched
  case CFS =>
    unfold dispatchFn
    rw [show (Sim.scrub s).cfsQ = s.cfsQ from rfl,
      show (Sim.scrub s).counter = s.counter from rfl, liveVr_scrub]
    cases hp : cfsPop (liveVr s) s.cfsQ s.counter with
    | none => rfl
    | some v =>
      obtain ⟨oe, rest, ctr'⟩ := v
      cases oe with
      | none => rfl
      | some e =>
        dsimp only []
        rw [show lookupTask { Sim.scrub s with cfsQ := rest, counter := ctr' } e.pid
            = (lookupTask { s with cfsQ := rest, counter := ctr' } e.pid).map Task.scrub from
          lookupTask_scrub { s with cfsQ := rest, counter := ctr' } e.pid]
        cases lookupTask { s with cfsQ := rest, counter := ctr' } e.pid with
        | none => rfl
        | some t =>
          exact dispatchCommon_scrub mode cid Sched.CFS t { s with cfsQ := rest, counter := ctr' }
  case FIFO =>
    unfold dispatchFn
    rw [show (Sim.scrub s).fifoQ = s.fifoQ from rfl]
    cases s.fifoQ with
    | nil => rfl
    | cons p restQ =>
      dsimp only []
      rw [show lookupTask { Sim.scrub s with fifoQ := restQ } p
          = (lookupTask { s with fifoQ := restQ } p).map Task.scrub from
        lookupTask_scrub { s with fifoQ := restQ } p]
      cases lookupTask { s with fifoQ := restQ } p with
      | none => rfl
      | some t => exact dispatchCommon_scrub mode cid Sched.FIFO t { s with fifoQ := restQ }
  case RR =>
    unfold dispatchFn
    rw [show (Sim.scrub s).rrQ = s.rrQ from rfl]
    cases s.rrQ with
    | nil => rfl
    | cons p restQ =>
      dsimp only []
      rw [show lookupTask { Sim.scrub s with rrQ := restQ } p
          = (lookupTask { s with rrQ := restQ } p).map Task.scrub from
        lookupTask_scrub { s with rrQ := restQ } p]
      cases lookupTask { s with rrQ := restQ } p with
      | none => rfl
      | some t => exact dispatchCommon_scrub mode cid Sched.RR t { s with rrQ := restQ }
  case IDLE =>
    unfold dispatchFn
    rw [show (Sim.scrub s).idleQ = s.idleQ from rfl]
    cases s.idleQ with
    | nil => rfl
    | cons p restQ =>
      dsimp only []
      rw [show lookupTask { Sim.scrub s with idleQ := restQ } p
          = (lookupTask { s with idleQ := restQ } p).map Task.scrub from
        lookupTask_scrub { s with idleQ := restQ } p]
      cases lookupTask { s with idleQ := restQ } p with
      | none => rfl
      | some t => exact dispatchCommon_scrub mode cid Sched.IDLE t { s with idleQ := restQ }

lemma updateVruntime_scrub (mode : Mode) (t : Task) :
    updateVruntime mode (Task.scrub t) = Task.scrub (updateVruntime mode t) := by
  cases mode <;>
  · unfold updateVruntime Task.scrub
    dsimp only []
    split <;> rfl

lemma runOneTickFn_scrub (mode : Mode) (cid : ℕ) (s : Sim) :
    runOneTickFn mode cid (Sim.scrub s) = Sim.scrub (runOneTickFn mode cid s) := by
  unfold runOneTickFn
  rw [show (Sim.scrub s).cores = s.cores from rfl]
  split
  · rfl
  rename_i core hcc
  split
  · rfl
  rename_i p hrp
  rw [lookupTask_scrub]
  cases hlt : lookupTask s p with
  | none => rfl
  | some t =>
    dsimp only [Option.map]
    rw [show ({ Task.scrub t with
          remaining := max 0 ((Task.scrub t).remaining - 1),
          total_run := (Task.scrub t).total_run + 1 } : Task)
        = Task.scrub { t with
          remaining := max 0 (t.remaining - 1),
          total_run := t.total_run + 1 } from rfl]
    rw [show (Task.scrub t).assigned_scheduler = t.assigned_scheduler from rfl]
    rw [updateVruntime_scrub mode
      { t with remaining := max 0 (t.remaining - 1), total_run := t.total_run + 1 }]
    rw [← apply_ite Task.scrub]
    generalize (if t.assigned_scheduler = some Sched.CFS then
      updateVruntime mode { t with
        remaining := max 0 (t.remaining - 1),
        total_run := t.total_run + 1 }
      else { t with
        remaining := max 0 (t.remaining - 1),
        total_run := t.total_run + 1 }) = T
    rw [show (Task.scrub T).remaining = T.remaining from rfl,
      show (Task.scrub T).assigned_scheduler = T.assigned_scheduler from rfl]
    have hupd : ∀ x : Task, updBindings p (Task.scrub x) (Sim.scrub s).tasks
        = scrubT (updBindings p x s.tasks) := fun x => updBindings_scrub p x s.tasks
    split
    · -- completion
      dsimp only [Sim.scrub, Task.scrub]
      congr 1
      exact hupd { T with completion_time := some s.time }
    split
    · -- quantum expiry: per class
      split <;>
      · dsimp only [Sim.scrub, Task.scrub]
        congr 1
        exact hupd T
    · -- keeps running
      dsimp only [Sim.scrub, Task.scrub]
      congr 1
      exact hupd T

lemma coreStep_scrub (mode : Mode) (cid : ℕ) (s : Sim) :
    coreStep mode cid (Sim.scrub s) = Sim.scrub (coreStep mode cid s) := by
  unfold coreStep
  dsimp only []
  rw [show (Sim.scrub s).cores = s.cores from rfl, pick_scrub]
  split
  · rename_i core hcc
    split
    · split
      · rename_i sched hpick
        rw [dispatchFn_scrub]
        exact runOneTickFn_scrub mode cid _
      · exact runOneTickFn_scrub mode cid s
    · exact runOneTickFn_scrub mode cid s
  · exact runOneTickFn_scrub mode cid s

lemma foldl_coreStep_scrub (mode : Mode) :
    ∀ (l : List ℕ) (s : Sim),
      l.foldl (fun acc cid => coreStep mode cid acc) (Sim.scrub s)
        = Sim.scrub (l.foldl (fun acc cid => coreStep mode cid acc) s) := by
  intro l
  induction l with
  | nil => intro s; rfl
  | cons c rest ih =>
    intro s
    show rest.foldl _ (coreStep mode c (Sim.scrub s)) = _
    rw [coreStep_scrub]
    exact ih (coreStep mode c s)

lemma tickFn_scrub (mode : Mode) (t : ℤ) (s : Sim) :
    tickFn mode t (Sim.scrub s) = Sim.scrub (tickFn mode t s) := by
  unfold tickFn
  rw [show ({ Sim.scrub s with time := t } : Sim) = Sim.scrub { s with time := t } from rfl]
  show (List.range (Sim.scrub { s with time := t }).cores.length).foldl
      (fun acc cid => coreStep mode cid acc) (Sim.scrub { s with time := t }) = _
  rw [show (Sim.scrub { s with time := t }).cores
      = ({ s with time := t } : Sim).cores from rfl]
  exact foldl_coreStep_scrub mode _ _

lemma scrubT_length (l : List (ℕ × Task)) : (scrubT l).length = l.length :=
  List.length_map l _

lemma admitRows_scrub (mode : Mode) (oracle : Features → Labels) (u : ℕ → ℕ) :
    ∀ (rows : List Features) (s : Sim),
      admitRows mode oracle (fun _ => 0) rows (Sim.scrub s)
        = Sim.scrub (admitRows mode oracle u rows s) := by
  intro rows
  induction rows with
  | nil => intro s; rfl
  | cons row rest ih =>
    intro s
    show admitRows mode oracle (fun _ => 0) rest
        (admitFn mode oracle (Task.init row 0) (Sim.scrub s)) = _
    rw [show (Task.init row 0 : Task)
        = Task.scrub (Task.init row (u s.tasks.length)) from rfl]
    rw [admitFn_scrub]
    exact ih (admitFn mode oracle (Task.init row (u s.tasks.length)) s)

lemma simStep_scrub (mode : Mode) (oracle : Features → Labels) (u : ℕ → ℕ)
    (rows : List Features) (t : ℤ) (s : Sim) :
    simStep mode oracle (fun _ => 0) rows t (Sim.scrub s)
      = Sim.scrub (simStep mode oracle u rows t s) := by
  unfold simStep
  rw [admitRows_scrub mode oracle u, tickFn_scrub]

lemma runTicks_scrub (mode : Mode) (oracle : Features → Labels) (u : ℕ → ℕ)
    (rows : List Features) :
    ∀ (n : ℕ) (t : ℤ) (s : Sim),
      runTicks mode oracle (fun _ => 0) rows t n (Sim.scrub s)
        = Sim.scrub (runTicks mode oracle u rows t n s) := by
  intro n
  induction n with
  | zero => intro t s; rfl
  | succ n ih =>
    intro t s
    show runTicks mode oracle (fun _ => 0) rows (t + 1) n
        (simStep mode oracle (fun _ => 0) rows t (Sim.scrub s)) = _
    rw [simStep_scrub mode oracle u]
    exact ih (t + 1) (simStep mode oracle u rows t s)

/-- Scrubbing a run with any uid stream yields the run with the zero stream:
uids influence nothing but the stored uid fields themselves. -/
lemma runSim_scrub (mode : Mode) (oracle : Features → Labels) (u : ℕ → ℕ)
    (rows : List Features) (nc : ℕ) (rrq : ℤ) (n : ℕ) :
    Sim.scrub (runSim mode oracle u rows nc rrq n)
      = runSim mode oracle (fun _ => 0) rows nc rrq n := by
  unfold runSim
  rw [← runTicks_scrub mode oracle u rows n 0 (initSim nc rrq)]
  rfl

lemma exportTaskMetrics_scrub (s : Sim) :
    exportTaskMetrics (Sim.scrub s) = exportTaskMetrics s := by
  unfold exportTaskMetrics
  show (scrubT s.tasks).filterMap _ = _
  unfold scrubT
  rw [List.filterMap_map]
  apply List.filterMap_congr
  intro pr _
  rfl

/-- C9: the simulation is deterministic.  `runSim` is a pure function of the
input rows, the classifier oracle, the core count, the RR quantum and the
tick count; the sole nondeterministic ingredient of the Python program,
`uuid.uuid4()`, is the uid stream, and two runs that differ only in it
produce identical event logs (same records, same fields, same order),
identical exported metrics and the same context-switch count. -/
theorem C9_determinism (mode : Mode) (oracle : Features → Labels) (u1 u2 : ℕ → ℕ)
    (rows : List Features) (nc : ℕ) (rrq : ℤ) (n : ℕ) :
    (runSim mode oracle u1 rows nc rrq n).logList
        = (runSim mode oracle u2 rows nc rrq n).logList ∧
    exportTaskMetrics (runSim mode oracle u1 rows nc rrq n)
        = exportTaskMetrics (runSim mode oracle u2 rows nc rrq n) ∧
    (runSim mode oracle u1 rows nc rrq n).contextSwitches
        = (runSim mode oracle u2 rows nc rrq n).contextSwitches := by
  have hsim : Sim.scrub (runSim mode oracle u1 rows nc rrq n)
      = Sim.scrub (runSim mode oracle u2 rows nc rrq n) :=
    (runSim_scrub mode oracle u1 rows nc rrq n).trans
      (runSim_scrub mode oracle u2 rows nc rrq n).symm
  refine ⟨?_, ?_, ?_⟩
  · have h := congrArg Sim.logList hsim
    exact h
  · calc exportTaskMetrics (runSim mode oracle u1 rows nc rrq n)
        = exportTaskMetrics (Sim.scrub (runSim mode oracle u1 rows nc rrq n)) :=
          (exportTaskMetrics_scrub _).symm
      _ = exportTaskMetrics (Sim.scrub (runSim mode oracle u2 rows nc rrq n)) :=
          congrArg exportTaskMetrics hsim
      _ = exportTaskMetrics (runSim mode oracle u2 rows nc rrq n) :=
          exportTaskMetrics_scrub _
  · have h := congrArg Sim.contextSwitches hsim
    exact h

end AVIOS
